import Mathlib

/-!
Verification development for the biomarker scoring and interaction-detection
engine (`app/analytics_engine.py` and `app/knowledge_base.py`).

Conventions of the embedding:
* Python floats are modelled as exact rationals (`ℚ`); `round` is Python 3
  `round` (banker's rounding, half to even), modelled by `rhe`, and
  `round(x, 1)` by `round1`.
* Python dicts holding classification records are modelled two ways:
  - `Classification`: a record carrying the fields `key`, `status`,
    `deviation_percent`, `category` that the scoring code reads (the shape
    produced by `classify_biomarker` for a catalogued biomarker);
  - `RecR`: a raw record in which every field except `status` is optional,
    faithfully covering the `{"status": "unknown", "message": ...}` shape
    returned for an uncatalogued biomarker.  Dict accesses `c["field"]`
    that can raise `KeyError` are modelled in the `Except String` monad.
* Python string methods used by the engine (`lower`, `strip`, `split("+")`,
  `startswith`, slicing) are modelled by structurally recursive functions on
  the character list of the string (the engine only ever applies them to
  ASCII data).
* Presentation-only fields of the result dicts (the `normal_range` string,
  icons, message strings inside category entries) are not modelled; every
  field that any arithmetic or control flow reads is.
-/

/-- Python 3 `round` to an integer: round half to even (banker's rounding). -/
def rhe (q : ℚ) : ℤ :=
  if q - ⌊q⌋ < 1/2 then ⌊q⌋
  else if 1/2 < q - ⌊q⌋ then ⌊q⌋ + 1
  else if 2 ∣ ⌊q⌋ then ⌊q⌋ else ⌊q⌋ + 1

/-- Python 3 `round(x, 1)`: round to one decimal digit, half to even. -/
def round1 (q : ℚ) : ℚ := (rhe (q * 10) : ℚ) / 10

/-- Lower-casing of an ASCII character, as Python `str.lower` acts on the
ASCII range (all data fed to the engine is ASCII). -/
def lcChar (c : Char) : Char :=
  if 'A' ≤ c ∧ c ≤ 'Z' then Char.ofNat (c.toNat + 32) else c

/-- Python `str.lower` on ASCII strings. -/
def pyLower (s : String) : String := ⟨s.data.map lcChar⟩

/-- Whitespace test used by Python `str.strip`. -/
def isSpaceChar (c : Char) : Bool := c == ' ' || c == '\t' || c == '\n' || c == '\r'

/-- Python `str.strip` on a character list: drop whitespace from both ends. -/
def stripChars (l : List Char) : List Char :=
  ((l.dropWhile isSpaceChar).reverse.dropWhile isSpaceChar).reverse

/-- Python `str.strip`. -/
def pyStrip (s : String) : String := ⟨stripChars s.data⟩

/-- Split a character list on the character `'+'` (Python `s.split("+")`). -/
def splitOnPlus (l : List Char) : List (List Char) :=
  match l with
  | [] => [[]]
  | c :: rest =>
    let r := splitOnPlus rest
    if c == '+' then [] :: r
    else
      match r with
      | [] => [[c]]
      | h :: t => (c :: h) :: t

/-- Python `s.split("+")` for strings. -/
def pySplitPlus (s : String) : List String := (splitOnPlus s.data).map fun l => ⟨l⟩

/-- Python `s.startswith(pre)`. -/
def pyStartsWith (s pre : String) : Bool := pre.data.isPrefixOf s.data

/-- Python slicing `s[n:]` (by characters; the engine only slices ASCII). -/
def pyDrop (s : String) (n : ℕ) : String := ⟨s.data.drop n⟩

/-- Lookup in an association list modelling a Python dict `get` (the dicts in
the catalogs have pairwise distinct keys, so first match is the match). -/
def findAssoc {α : Type} (l : List (String × α)) (k : String) : Option α :=
  (l.find? (fun p => p.1 == k)).map (fun p => p.2)

/-- A biomarker reference-range entry of `BIOMARKER_RANGES`
(`analytics_engine.py` lines 23-38): unit, male range, female range,
category. -/
structure BiomarkerDef where
  unit : String
  male : ℚ × ℚ
  female : ℚ × ℚ
  category : String
deriving DecidableEq

/-- The static biomarker reference catalog (`BIOMARKER_RANGES`,
`analytics_engine.py` lines 23-38). -/
def BIOMARKER_RANGES : List (String × BiomarkerDef) := [
  ("hemoglobin", ⟨"g/dL", (13.5, 17.5), (12.0, 15.5), "blood_health"⟩),
  ("rbc_count", ⟨"million cells/mcL", (4.5, 5.5), (4.0, 5.0), "blood_health"⟩),
  ("ferritin", ⟨"ng/mL", (20, 250), (10, 120), "deficiencies"⟩),
  ("vitamin_b12", ⟨"pg/mL", (200, 900), (200, 900), "deficiencies"⟩),
  ("vitamin_d", ⟨"ng/mL", (30, 100), (30, 100), "deficiencies"⟩),
  ("fasting_glucose", ⟨"mg/dL", (70, 100), (70, 100), "metabolic"⟩),
  ("hba1c", ⟨"%", (4.0, 5.6), (4.0, 5.6), "metabolic"⟩),
  ("total_cholesterol", ⟨"mg/dL", (125, 200), (125, 200), "lipids"⟩),
  ("ldl", ⟨"mg/dL", (0, 100), (0, 100), "lipids"⟩),
  ("hdl", ⟨"mg/dL", (40, 100), (50, 100), "lipids"⟩),
  ("triglycerides", ⟨"mg/dL", (0, 150), (0, 150), "lipids"⟩),
  ("hs_crp", ⟨"mg/L", (0, 1.0), (0, 1.0), "inflammation"⟩),
  ("tsh", ⟨"mIU/L", (0.4, 4.0), (0.4, 4.0), "hormonal"⟩),
  ("sgpt_alt", ⟨"U/L", (7, 56), (7, 45), "liver"⟩)]

/-- Friendly display names (`BIOMARKER_DISPLAY_NAMES`,
`analytics_engine.py` lines 41-56). -/
def BIOMARKER_DISPLAY_NAMES : List (String × String) := [
  ("hemoglobin", "Hemoglobin"),
  ("rbc_count", "RBC Count"),
  ("ferritin", "Ferritin"),
  ("vitamin_b12", "Vitamin B12"),
  ("vitamin_d", "Vitamin D (25-OH)"),
  ("fasting_glucose", "Fasting Glucose"),
  ("hba1c", "HbA1c"),
  ("total_cholesterol", "Total Cholesterol"),
  ("ldl", "LDL"),
  ("hdl", "HDL"),
  ("triglycerides", "Triglycerides"),
  ("hs_crp", "hs-CRP"),
  ("tsh", "TSH"),
  ("sgpt_alt", "SGPT / ALT")]

/-- A risk-category entry of `RISK_CATEGORIES` (`analytics_engine.py`
lines 59-67): human label, weight, icon. -/
structure CatInfo where
  label : String
  weight : ℚ
  icon : String
deriving DecidableEq

/-- The fixed risk categories with weights (`RISK_CATEGORIES`,
`analytics_engine.py` lines 59-67). -/
def RISK_CATEGORIES : List (String × CatInfo) := [
  ("metabolic", ⟨"Metabolic / Diabetes Risk", 1.3, "fire"⟩),
  ("lipids", ⟨"Cardiovascular / Lipids", 1.2, "heart-pulse"⟩),
  ("deficiencies", ⟨"Nutritional Deficiencies", 1.0, "capsules"⟩),
  ("inflammation", ⟨"Inflammation", 1.15, "shield-virus"⟩),
  ("hormonal", ⟨"Hormonal / Thyroid", 1.1, "dna"⟩),
  ("blood_health", ⟨"Blood Health / Anemia", 1.0, "droplet"⟩),
  ("liver", ⟨"Liver Function", 1.0, "hand-holding-medical"⟩)]

/-- A raw classification record as returned by `classify_biomarker`
(`analytics_engine.py` lines 85-113): a Python dict whose only always-present
field is `status`.  For an uncatalogued biomarker the dict is
`{"status": "unknown", "message": ...}`: every other field is absent
(`none`). -/
structure RecR where
  biomarker : Option String
  key : Option String
  value : Option ℚ
  unit : Option String
  status : String
  deviation_percent : Option ℚ
  category : Option String
  message : Option String
deriving DecidableEq

/-- Display-name resolution `BIOMARKER_DISPLAY_NAMES.get(key, key)`
(`analytics_engine.py` line 105). -/
def displayName (key : String) : String := (findAssoc BIOMARKER_DISPLAY_NAMES key).getD key

/-- Gender resolution and range selection of `classify_biomarker`
(`analytics_engine.py` lines 91-92): `gender.lower() in ("male", "m")`
selects the male range, anything else the female range. -/
def genderRange (ref : BiomarkerDef) (gender : String) : ℚ × ℚ :=
  if pyLower gender == "male" || pyLower gender == "m" then ref.male else ref.female

/-- Translation of `classify_biomarker` (`analytics_engine.py` lines 85-113).
Classify one biomarker value as low / normal / high against the
gender-resolved range; a key absent from `BIOMARKER_RANGES` yields the
status-`unknown` record.  The deviation formulas divide by the range bound,
which in Python raises `ZeroDivisionError` when that bound is `0`; this is
modelled by the `Except` error case.  (The presentation-only `normal_range`
string of the source dict is not modelled.) -/
def classify_biomarker (key : String) (value : ℚ) (gender : String) : Except String RecR :=
  match findAssoc BIOMARKER_RANGES key with
  | none => .ok ⟨none, none, none, none, "unknown", none, none, some ("No reference for " ++ key)⟩
  | some ref =>
    let rng := genderRange ref gender
    let low := rng.1
    let high := rng.2
    if value < low then
      if low = 0 then .error "ZeroDivisionError: float division by zero"
      else .ok ⟨some (displayName key), some key, some value, some ref.unit, "low",
                some (round1 ((low - value) / low * 100)), some ref.category, none⟩
    else if value > high then
      if high = 0 then .error "ZeroDivisionError: float division by zero"
      else .ok ⟨some (displayName key), some key, some value, some ref.unit, "high",
                some (round1 ((value - high) / high * 100)), some ref.category, none⟩
    else
      .ok ⟨some (displayName key), some key, some value, some ref.unit, "normal",
           some 0, some ref.category, none⟩

/-- Translation of `classify_all` (`analytics_engine.py` lines 115-125) for a
mapping whose values are already numeric: the `None`/empty/`float` filtering
is the identity on such input, and the `except (ValueError, TypeError)`
handler does not catch the `ZeroDivisionError` that `classify_biomarker` can
raise, so that error propagates. -/
def classify_all (biomarkers : List (String × ℚ)) (gender : String) : Except String (List RecR) :=
  biomarkers.mapM (fun p => classify_biomarker p.1 p.2 gender)

/-- A well-formed classification record, carrying exactly the fields the
scoring and detection code reads (`key`, `status`, `deviation_percent`,
`category`); this is the §3 data-model shape produced by
`classify_biomarker` for a catalogued biomarker. -/
structure Classification where
  key : String
  status : String
  deviation_percent : ℚ
  category : String
deriving DecidableEq

/-- A condition of an interaction rule: biomarker key and required status
(`knowledge_base.py` lines 89-90). -/
structure Condition where
  biomarker : String
  status : String
deriving DecidableEq

/-- A well-formed interaction-modifier rule (`knowledge_base.py`
lines 81-110 and `analytics_engine.py` lines 153-159): operator, conditions,
score modifier, affected cluster, priority. -/
structure Rule where
  name : String
  operator : String
  conditions : List Condition
  score_modifier : ℤ
  affected_cluster : String
  priority : ℤ
deriving DecidableEq

/-- The status lookup dict built by `detect_interactions` and
`detect_cluster_triggers` (`knowledge_base.py` lines 72-78 and 122-127):
entries with an empty `key` are skipped, a later entry for the same key
overwrites an earlier one, and a missing key reads as `"normal"`
(`status_map.get(bm_key, "normal")`). -/
def statusGet (pairs : List (String × String)) (k : String) : String :=
  match ((pairs.filter (fun p => p.1 != "")).reverse.find? (fun p => p.1 == k)) with
  | some p => p.2
  | none => "normal"

/-- The `(key, status)` pairs a classification list contributes to the status
dict (`c.get("key", "")`, `c.get("status", "normal")`; both fields are
present on a well-formed record). -/
def clsPairs (cls : List Classification) : List (String × String) :=
  cls.map (fun c => (c.key, c.status))

/-- Whether an interaction rule fires against the status dict
(`knowledge_base.py` lines 85-106): `AND` requires every condition's
biomarker to have the required status, `OR` at least one; any other operator
never fires. -/
def ruleTriggers (pairs : List (String × String)) (r : Rule) : Bool :=
  if r.operator == "AND" then
    r.conditions.all (fun c => statusGet pairs c.biomarker == c.status)
  else if r.operator == "OR" then
    r.conditions.any (fun c => statusGet pairs c.biomarker == c.status)
  else false

/-- Core of `detect_interactions` over an already-extracted pair list: the
early return for an empty rule catalog or empty classification list, the
filter of firing rules in catalog order, and the final stable ascending sort
by priority (`triggered.sort(key=...)`, `knowledge_base.py` lines 69-110). -/
def detectOnPairs (rules : List Rule) (pairs : List (String × String)) : List Rule :=
  if rules = [] ∨ pairs = [] then []
  else (rules.filter (ruleTriggers pairs)).mergeSort (fun a b => a.priority ≤ b.priority)

/-- Translation of `detect_interactions` (`knowledge_base.py` lines 53-110)
for a well-formed rule catalog. -/
def detect_interactions (rules : List Rule) (cls : List Classification) : List Rule :=
  detectOnPairs rules (clsPairs cls)

/-- The alias table `name_to_key` of `_pattern_matches`
(`knowledge_base.py` lines 152-169). -/
def name_to_key : List (String × String) := [
  ("hb", "hemoglobin"),
  ("hemoglobin", "hemoglobin"),
  ("ferritin", "ferritin"),
  ("b12", "vitamin_b12"),
  ("d", "vitamin_d"),
  ("rbc", "rbc_count"),
  ("glucose", "fasting_glucose"),
  ("hba1c", "hba1c"),
  ("tc", "total_cholesterol"),
  ("ldl", "ldl"),
  ("hdl", "hdl"),
  ("tg", "triglycerides"),
  ("crp", "hs_crp"),
  ("cpr", "hs_crp"),
  ("tsh", "tsh"),
  ("alt", "sgpt_alt")]

/-- Parse one `+`-separated clause of a trigger pattern
(`knowledge_base.py` lines 174-189): lower-case and strip the part, read the
leading status word (`low `/`high `/`normal `), and return the required
status together with the stripped marker alias; a part without a recognised
status word yields `none` (the source `continue`s past it). -/
def parseClause (part : String) : Option (String × String) :=
  let pl := pyLower (pyStrip part)
  if pyStartsWith pl "low " then some ("low", pyStrip (pyDrop pl 4))
  else if pyStartsWith pl "high " then some ("high", pyStrip (pyDrop pl 5))
  else if pyStartsWith pl "normal " then some ("normal", pyStrip (pyDrop pl 7))
  else none

/-- Translation of `_pattern_matches` (`knowledge_base.py` lines 146-200):
split the pattern on `+`, strip each part; a part whose status word does not
parse, or whose marker alias is not in `name_to_key`, is skipped; every
remaining clause must have its required status in the status dict (missing
keys read `"normal"`). -/
def pattern_matches (pattern_text : String) (pairs : List (String × String)) : Bool :=
  ((pySplitPlus pattern_text).map pyStrip).all (fun part =>
    match parseClause part with
    | none => true
    | some sn =>
      match findAssoc name_to_key sn.2 with
      | none => true
      | some bm_key => statusGet pairs bm_key == sn.1)

/-- A trigger-pattern entry of the cluster catalog
(`knowledge_base.py` lines 131-141): pattern text, diagnosis, priority. -/
structure TriggerPattern where
  pattern : String
  diagnosis : String
  priority : ℤ
deriving DecidableEq

/-- One cluster of the `cluster_triggers` catalog: description and trigger
patterns. -/
structure ClusterInfo where
  description : String
  trigger_patterns : List TriggerPattern
deriving DecidableEq

/-- A detected cluster pattern as assembled by `detect_cluster_triggers`
(`knowledge_base.py` lines 135-141). -/
structure DetectedPattern where
  cluster : String
  cluster_label : String
  pattern : String
  diagnosis : String
  priority : ℤ
deriving DecidableEq

/-- Translation of `detect_cluster_triggers` (`knowledge_base.py`
lines 112-144): early return on an empty pattern catalog or empty
classification list; otherwise report, per catalog order, every trigger
pattern that `_pattern_matches` accepts, and stable-sort the reports by
ascending priority. -/
def detect_cluster_triggers (catalog : List (String × ClusterInfo)) (cls : List Classification) :
    List DetectedPattern :=
  if catalog = [] ∨ cls = [] then []
  else
    ((catalog.map (fun ck =>
        ck.2.trigger_patterns.filterMap (fun tp =>
          if pattern_matches tp.pattern (clsPairs cls) then
            some ⟨ck.1, ck.2.description, tp.pattern, tp.diagnosis, tp.priority⟩
          else none))).flatten).mergeSort (fun a b => a.priority ≤ b.priority)

/-- The resolved clauses of a trigger pattern: those `+`-separated parts
whose status word parses and whose alias resolves through `name_to_key`,
as `(required status, biomarker key)` pairs.  This is the clause set the
specification's matching condition quantifies over. -/
def resolvedClauses (pattern_text : String) : List (String × String) :=
  ((pySplitPlus pattern_text).map pyStrip).filterMap (fun part =>
    (parseClause part).bind (fun sn =>
      (findAssoc name_to_key sn.2).map (fun bm_key => (sn.1, bm_key))))

/-- The abnormal classifications (`status != "normal"`,
`analytics_engine.py` line 145). -/
def abnormalOf (cls : List Classification) : List Classification :=
  cls.filter (fun c => c.status != "normal")

/-- The abnormal classifications with deviation above 30
(`analytics_engine.py` line 146). -/
def highDevOf (cls : List Classification) : List Classification :=
  (abnormalOf cls).filter (fun c => 30 < c.deviation_percent)

/-- Summed interaction penalty attributed to one cluster:
`interaction_penalties_by_cluster` (`analytics_engine.py` lines 151-159),
read back with default `0` (line 185). -/
def clusterPenalty (triggered : List Rule) (k : String) : ℤ :=
  ((triggered.filter (fun r => r.affected_cluster == k)).map
    (fun r => |r.score_modifier|)).sum

/-- The markers of one category (`analytics_engine.py` line 167). -/
def catMarkers (cls : List Classification) (k : String) : List Classification :=
  cls.filter (fun c => c.category == k)

/-- The abnormal markers of one category (`analytics_engine.py` line 168). -/
def catAbnormal (cls : List Classification) (k : String) : List Classification :=
  (catMarkers cls k).filter (fun c => c.status != "normal")

/-- Mean deviation over a category's abnormal markers, `0` if none
(`analytics_engine.py` lines 175-178). -/
def catAvgDev (cls : List Classification) (k : String) : ℚ :=
  if catAbnormal cls k = [] then 0
  else ((catAbnormal cls k).map (fun c => c.deviation_percent)).sum / ((catAbnormal cls k).length : ℚ)

/-- The raw (pre-rounding) category risk
`(ratio * 60 + severity_factor * 40) * weight`
(`analytics_engine.py` lines 174-181). -/
def catRiskRaw (cls : List Classification) (k : String) (w : ℚ) : ℚ :=
  (((catAbnormal cls k).length : ℚ) / ((catMarkers cls k).length : ℚ) * 60 +
    min (catAvgDev cls k / 50) 1 * 40) * w

/-- The final category risk score: `min(100, round(risk_raw))`, then the
cluster's interaction penalty added and clamped to 100 again
(`analytics_engine.py` lines 182-186). -/
def catRiskScore (rules : List Rule) (cls : List Classification) (k : String) (w : ℚ) : ℤ :=
  min 100 (min 100 (rhe (catRiskRaw cls k w)) + clusterPenalty (detect_interactions rules cls) k)

/-- Category status label from the category health score
(`analytics_engine.py` lines 198-205). -/
def statusLabelOf (h : ℤ) : String :=
  if 90 ≤ h then "Healthy"
  else if 70 ≤ h then "Mild Concern"
  else if 40 ≤ h then "Needs Attention"
  else "High Risk"

/-- Overall level from the overall health score
(`analytics_engine.py` lines 238-247). -/
def levelOf (h : ℤ) : String :=
  if 85 ≤ h then "excellent"
  else if 70 ≤ h then "good"
  else if 50 ≤ h then "moderate"
  else if 30 ≤ h then "needs_attention"
  else "high_risk"

/-- One entry of the per-category breakdown
(`analytics_engine.py` lines 214-226); the presentation-only `icon`,
`markers` and `interaction_modifiers` sublists are not modelled. -/
structure CategoryScore where
  label : String
  health_score : ℤ
  status_label : String
  total_markers : ℕ
  abnormal_markers : ℕ
deriving DecidableEq

/-- The category breakdown map built by the loop of `_get_risk_score`
(`analytics_engine.py` lines 166-226): one entry per fixed risk category
that has at least one classified marker, in catalog order. -/
def categoryEntries (rules : List Rule) (cls : List Classification) :
    List (String × CategoryScore) :=
  RISK_CATEGORIES.filterMap (fun p =>
    if catMarkers cls p.1 = [] then none
    else some (p.1,
      ⟨p.2.label,
       max 0 (100 - catRiskScore rules cls p.1 p.2.weight),
       statusLabelOf (max 0 (100 - catRiskScore rules cls p.1 p.2.weight)),
       (catMarkers cls p.1).length,
       (catAbnormal cls p.1).length⟩))

/-- The accumulated `total_weight` of the category loop
(`analytics_engine.py` lines 192-195), over an arbitrary category table. -/
def totalWeightOver (table : List (String × CatInfo)) (cls : List Classification) : ℚ :=
  (table.filterMap (fun p =>
    if catMarkers cls p.1 = [] then none
    else some (p.2.weight * ((catMarkers cls p.1).length : ℚ)))).sum

/-- The accumulated `total_weighted_penalty` of the category loop
(`analytics_engine.py` lines 192-195), over an arbitrary category table. -/
def weightedPenaltyOver (rules : List Rule) (table : List (String × CatInfo))
    (cls : List Classification) : ℚ :=
  (table.filterMap (fun p =>
    if catMarkers cls p.1 = [] then none
    else some ((catRiskScore rules cls p.1 p.2.weight : ℚ) *
      (p.2.weight * ((catMarkers cls p.1).length : ℚ))))).sum

/-- The `total_weight` accumulator instantiated at the fixed categories. -/
def totalWeight (cls : List Classification) : ℚ := totalWeightOver RISK_CATEGORIES cls

/-- The `total_weighted_penalty` accumulator instantiated at the fixed
categories. -/
def weightedPenalty (rules : List Rule) (cls : List Classification) : ℚ :=
  weightedPenaltyOver rules RISK_CATEGORIES cls

/-- The overall risk before final rounding (`analytics_engine.py`
lines 229-234): weighted mean of the category risk scores plus `2` per
high-deviation marker, clamped to 100; `0` when no category is present. -/
def overallRisk (rules : List Rule) (cls : List Classification) : ℚ :=
  if 0 < totalWeight cls then
    min 100 (weightedPenalty rules cls / totalWeight cls + 2 * ((highDevOf cls).length : ℚ))
  else 0

/-- The result of `_get_risk_score` (`analytics_engine.py` lines 141-142 and
249-270).  The empty-input early return carries only `score` and `level`;
the fields absent from that dict are `none` there.  `triggered_interactions`
holds the triggered rules themselves (the source re-projects their fields
for display). -/
structure RiskResult where
  score : ℤ
  risk_score : Option ℤ
  level : String
  total_markers : Option ℕ
  abnormal_markers : Option ℕ
  high_deviation_markers : Option ℕ
  category_scores : List (String × CategoryScore)
  triggered_interactions : List Rule
deriving DecidableEq

/-- Translation of `_get_risk_score` (`analytics_engine.py` lines 127-270)
on well-formed classification records: empty input returns the
`score 0 / level "unknown"` stub; otherwise the category breakdown, the
overall health score `max(0, round(100 - overall_risk))`, the reported
`round(overall_risk)`, the level, and the marker counts. -/
def get_risk_score (rules : List Rule) (cls : List Classification) : RiskResult :=
  if cls = [] then ⟨0, none, "unknown", none, none, none, [], []⟩
  else
    ⟨max 0 (rhe (100 - overallRisk rules cls)),
     some (rhe (overallRisk rules cls)),
     levelOf (max 0 (rhe (100 - overallRisk rules cls))),
     some cls.length,
     some (abnormalOf cls).length,
     some (highDevOf cls).length,
     categoryEntries rules cls,
     detect_interactions rules cls⟩

/-- Dict access `c["deviation_percent"]` on a raw record: raises `KeyError`
when the field is absent (as on the status-`unknown` record). -/
def getDevR (c : RecR) : Except String ℚ :=
  match c.deviation_percent with
  | some d => .ok d
  | none => .error "KeyError: 'deviation_percent'"

/-- The comprehension `[c for c in abnormal if c["deviation_percent"] > 30]`
(`analytics_engine.py` line 146): evaluates the dict access on every element
in order, so a record without the field raises. -/
def highDevRawFilter : List RecR → Except String (List RecR)
  | [] => .ok []
  | c :: rest => do
    let d ← getDevR c
    let tail ← highDevRawFilter rest
    if 30 < d then .ok (c :: tail) else .ok tail

/-- The `(key, status)` pairs of raw records for the status dict
(`c.get("key", "")`, `c.get("status", "normal")`,
`knowledge_base.py` lines 73-78). -/
def rawPairs (recs : List RecR) : List (String × String) :=
  recs.map (fun c => (c.key.getD "", c.status))

/-- The category loop of `_get_risk_score` (`analytics_engine.py`
lines 166-226) on raw records, returning the category entries together with
the accumulated `total_weighted_penalty` and `total_weight`.  The mean
deviation sums `c["deviation_percent"]` over the category's abnormal
records, so a record lacking the field raises `KeyError`. -/
def catLoopRaw (triggered : List Rule) (recs : List RecR) :
    List (String × CatInfo) → Except String (List (String × CategoryScore) × ℚ × ℚ)
  | [] => .ok ([], 0, 0)
  | p :: rest => do
    let ms := recs.filter (fun c => c.category == some p.1)
    let ab := ms.filter (fun c => c.status != "normal")
    if ms = [] then catLoopRaw triggered recs rest
    else do
      let avg ← if ab = [] then pure (0 : ℚ) else do
        let devs ← ab.mapM getDevR
        pure (devs.sum / (ab.length : ℚ))
      let ratio : ℚ := (ab.length : ℚ) / (ms.length : ℚ)
      let raw := (ratio * 60 + min (avg / 50) 1 * 40) * p.2.weight
      let rs := min 100 (min 100 (rhe raw) + clusterPenalty triggered p.1)
      let health := max 0 (100 - rs)
      let acc ← catLoopRaw triggered recs rest
      .ok ((p.1, ⟨p.2.label, health, statusLabelOf health, ms.length, ab.length⟩) :: acc.1,
           ((rs : ℚ) * (p.2.weight * (ms.length : ℚ)) + acc.2.1,
            p.2.weight * (ms.length : ℚ) + acc.2.2))

/-- Translation of `_get_risk_score` (`analytics_engine.py` lines 127-270)
on raw records, with every dict access that can raise `KeyError` modelled in
the `Except` monad.  `detect_interactions` reads only the `key` and `status`
fields of the records (via `.get` with defaults), which `rawPairs`
extracts. -/
def get_risk_score_raw (rules : List Rule) (recs : List RecR) : Except String RiskResult :=
  if recs = [] then .ok ⟨0, none, "unknown", none, none, none, [], []⟩
  else do
    let abnormal := recs.filter (fun c => c.status != "normal")
    let highdev ← highDevRawFilter abnormal
    let triggered := detectOnPairs rules (rawPairs recs)
    let acc ← catLoopRaw triggered recs RISK_CATEGORIES
    let orisk : ℚ :=
      if 0 < acc.2.2 then min 100 (acc.2.1 / acc.2.2 + 2 * (highdev.length : ℚ)) else 0
    .ok ⟨max 0 (rhe (100 - orisk)), some (rhe orisk), levelOf (max 0 (rhe (100 - orisk))),
         some recs.length, some abnormal.length, some highdev.length, acc.1, triggered⟩

/-- A raw interaction-rule condition as parsed from the catalog JSON: either
field may be missing (`knowledge_base.py` lines 89-90 and 101-102 access
them with `cond["biomarker"]` / `cond["status"]`). -/
structure CondR where
  biomarker : Option String
  status : Option String
deriving DecidableEq

/-- A raw interaction-modifier rule as parsed from the catalog JSON, with
exactly the fields `detect_interactions` reads; each is read with a `.get`
default (`operator` defaults to `"AND"`, `conditions` to `[]`, `priority` to
`99`), so any of them may be missing. -/
structure RuleR where
  operator : Option String
  conditions : Option (List CondR)
  priority : Option ℤ
deriving DecidableEq

/-- Dict access `cond["biomarker"]` on a raw condition. -/
def condBiomarker (c : CondR) : Except String String :=
  match c.biomarker with
  | some s => .ok s
  | none => .error "KeyError: 'biomarker'"

/-- Dict access `cond["status"]` on a raw condition. -/
def condStatusR (c : CondR) : Except String String :=
  match c.status with
  | some s => .ok s
  | none => .error "KeyError: 'status'"

/-- The `AND` branch of `detect_interactions` (`knowledge_base.py`
lines 85-96) on raw conditions: walk the conditions in order, reading both
fields of each (raising `KeyError` if absent), and stop at the first
mismatch. -/
def andCondsRaw : List CondR → List (String × String) → Except String Bool
  | [], _ => .ok true
  | c :: rest, pairs => do
    let bk ← condBiomarker c
    let st ← condStatusR c
    if statusGet pairs bk != st then .ok false else andCondsRaw rest pairs

/-- The `OR` branch of `detect_interactions` (`knowledge_base.py`
lines 98-106) on raw conditions: stop at the first match. -/
def orCondsRaw : List CondR → List (String × String) → Except String Bool
  | [], _ => .ok false
  | c :: rest, pairs => do
    let bk ← condBiomarker c
    let st ← condStatusR c
    if statusGet pairs bk == st then .ok true else orCondsRaw rest pairs

/-- Whether a raw rule fires (`knowledge_base.py` lines 82-106):
`modifier.get("operator", "AND")`, `modifier.get("conditions", [])`. -/
def ruleTriggersRaw (pairs : List (String × String)) (r : RuleR) : Except String Bool :=
  if r.operator.getD "AND" == "AND" then andCondsRaw (r.conditions.getD []) pairs
  else if r.operator.getD "AND" == "OR" then orCondsRaw (r.conditions.getD []) pairs
  else .ok false

/-- Collect the firing raw rules in catalog order. -/
def triggeredRaw : List RuleR → List (String × String) → Except String (List RuleR)
  | [], _ => .ok []
  | r :: rest, pairs => do
    let b ← ruleTriggersRaw pairs r
    let more ← triggeredRaw rest pairs
    .ok (if b then r :: more else more)

/-- Translation of `detect_interactions` (`knowledge_base.py` lines 53-110)
on raw rules: the guard, the per-rule evaluation (with `KeyError` on a
condition missing a required field), and the stable sort by
`x.get("priority", 99)`. -/
def detect_interactions_raw (rules : List RuleR) (cls : List Classification) :
    Except String (List RuleR) :=
  if rules = [] ∨ cls = [] then .ok []
  else do
    let t ← triggeredRaw rules (clsPairs cls)
    .ok (t.mergeSort (fun a b => a.priority.getD 99 ≤ b.priority.getD 99))

/-- The parsed content of `interaction_modifiers.json` as far as
`_load_interaction_modifiers` reads it. -/
structure ModifierData where
  interaction_modifiers : Option (List RuleR)
deriving DecidableEq

/-- Translation of the assignment part of `_load_interaction_modifiers`
(`knowledge_base.py` lines 40-45): the parsed rule list is stored as-is via
`data.get("interaction_modifiers", [])` — no validation of any entry is
performed, and loading cannot fail on malformed entries. -/
def load_interaction_modifiers (d : ModifierData) : List RuleR :=
  d.interaction_modifiers.getD []

/-- Rounding an integer is the identity. -/
theorem rhe_intCast (n : ℤ) : rhe (n : ℚ) = n := by
  simp [rhe, Int.floor_intCast]

/-- Banker's rounding never goes below the floor. -/
theorem floor_le_rhe (q : ℚ) : ⌊q⌋ ≤ rhe q := by
  unfold rhe
  split_ifs <;> omega

/-- Banker's rounding never exceeds the floor plus one. -/
theorem rhe_le_floor_add_one (q : ℚ) : rhe q ≤ ⌊q⌋ + 1 := by
  unfold rhe
  split_ifs <;> omega

/-- Banker's rounding is monotone. -/
theorem rhe_mono {a b : ℚ} (h : a ≤ b) : rhe a ≤ rhe b := by
  rcases lt_or_le ⌊a⌋ ⌊b⌋ with hf | hf
  · calc rhe a ≤ ⌊a⌋ + 1 := rhe_le_floor_add_one a
    _ ≤ ⌊b⌋ := by omega
    _ ≤ rhe b := floor_le_rhe b
  · have hf2 : ⌊a⌋ = ⌊b⌋ := le_antisymm (Int.floor_mono h) hf
    unfold rhe
    rw [hf2]
    split_ifs <;> first | omega | linarith

/-- Banker's rounding is odd-symmetric. -/
theorem rhe_neg (q : ℚ) : rhe (-q) = -rhe q := by
  by_cases hq : q - ⌊q⌋ = 0
  · have hn : q = (⌊q⌋ : ℚ) := by linarith
    rw [hn, ← Int.cast_neg, rhe_intCast, rhe_intCast]
  · have h0 : (0 : ℚ) < q - ⌊q⌋ := by
      have := Int.floor_le q
      rcases lt_or_eq_of_le (sub_nonneg.mpr this) with h | h
      · exact h
      · exact absurd h.symm hq
    have h1 : q - ⌊q⌋ < 1 := by
      have := Int.lt_floor_add_one q
      push_cast at this ⊢
      linarith
    have hfl : ⌊-q⌋ = -⌊q⌋ - 1 := by
      rw [Int.floor_eq_iff]
      constructor
      · push_cast
        linarith
      · push_cast
        linarith
    unfold rhe
    rw [hfl]
    have hc : (-q) - ((-⌊q⌋ - 1 : ℤ) : ℚ) = 1 - (q - ⌊q⌋) := by push_cast; ring
    rw [hc]
    split_ifs <;> first | omega | linarith

/-- Banker's rounding commutes with translation by an even integer. -/
theorem rhe_add_even (q : ℚ) (k : ℤ) : rhe (q + ((2 * k : ℤ) : ℚ)) = rhe q + 2 * k := by
  have hfl : ⌊q + ((2 * k : ℤ) : ℚ)⌋ = ⌊q⌋ + 2 * k := Int.floor_add_int q (2 * k)
  unfold rhe
  rw [hfl]
  have hc : q + ((2 * k : ℤ) : ℚ) - ((⌊q⌋ + 2 * k : ℤ) : ℚ) = q - ⌊q⌋ := by push_cast; ring
  rw [hc]
  split_ifs <;> omega

/-- Rounding the reflection `100 - x` reflects the rounding. -/
theorem rhe_hundred_sub (q : ℚ) : rhe (100 - q) = 100 - rhe q := by
  have h : (100 : ℚ) - q = -q + ((2 * 50 : ℤ) : ℚ) := by push_cast; ring
  rw [h, rhe_add_even, rhe_neg]
  omega

/-- Banker's rounding preserves nonnegativity. -/
theorem rhe_nonneg {q : ℚ} (h : 0 ≤ q) : 0 ≤ rhe q := by
  have h2 : ((0 : ℤ) : ℚ) ≤ q := by exact_mod_cast h
  have := rhe_mono h2
  rwa [rhe_intCast] at this

/-- Banker's rounding respects an integer upper bound. -/
theorem rhe_le_of_le {q : ℚ} {n : ℤ} (h : q ≤ (n : ℚ)) : rhe q ≤ n := by
  have := rhe_mono h
  rwa [rhe_intCast] at this

/-- Rounding to one decimal preserves nonnegativity. -/
theorem round1_nonneg {q : ℚ} (h : 0 ≤ q) : 0 ≤ round1 q := by
  unfold round1
  have h10 : (0 : ℚ) ≤ q * 10 := by linarith
  have := rhe_nonneg h10
  have hcast : (0 : ℚ) ≤ ((rhe (q * 10) : ℤ) : ℚ) := by exact_mod_cast this
  linarith

/-- Every fixed risk-category weight is positive. -/
theorem risk_category_weight_pos : ∀ p ∈ RISK_CATEGORIES, (0 : ℚ) < p.2.weight := by
  intro p hp
  fin_cases hp <;> norm_num [RISK_CATEGORIES]

/-- Every member of a category's abnormal-marker list is a member of the
classification list. -/
theorem catAbnormal_subset {cls : List Classification} {k : String} {x : Classification}
    (h : x ∈ catAbnormal cls k) : x ∈ cls :=
  (List.mem_filter.mp (List.mem_filter.mp h).1).1

/-- With nonnegative deviations, a category's deviation sum is nonnegative. -/
theorem catAbnormal_sum_nonneg {cls : List Classification} {k : String}
    (hdev : ∀ x ∈ cls, 0 ≤ x.deviation_percent) :
    0 ≤ ((catAbnormal cls k).map (fun c => c.deviation_percent)).sum := by
  apply List.sum_nonneg
  intro y hy
  obtain ⟨x, hx, rfl⟩ := List.mem_map.mp hy
  exact hdev x (catAbnormal_subset hx)

/-- With nonnegative deviations, a category's mean deviation is
nonnegative. -/
theorem catAvgDev_nonneg {cls : List Classification} {k : String}
    (hdev : ∀ x ∈ cls, 0 ≤ x.deviation_percent) : 0 ≤ catAvgDev cls k := by
  unfold catAvgDev
  split_ifs
  · exact le_refl 0
  · exact div_nonneg (catAbnormal_sum_nonneg hdev) (by positivity)

/-- A cluster's interaction penalty is a sum of absolute values, hence
nonnegative. -/
theorem clusterPenalty_nonneg (t : List Rule) (k : String) : 0 ≤ clusterPenalty t k := by
  apply List.sum_nonneg
  intro y hy
  obtain ⟨r, _, rfl⟩ := List.mem_map.mp hy
  exact abs_nonneg _

/-- With nonnegative deviations and a nonnegative weight, the raw category
risk is nonnegative. -/
theorem catRiskRaw_nonneg {cls : List Classification} {k : String} {w : ℚ}
    (hdev : ∀ x ∈ cls, 0 ≤ x.deviation_percent) (hw : 0 ≤ w) :
    0 ≤ catRiskRaw cls k w := by
  unfold catRiskRaw
  apply mul_nonneg _ hw
  have h1 : (0 : ℚ) ≤ ((catAbnormal cls k).length : ℚ) / ((catMarkers cls k).length : ℚ) :=
    div_nonneg (by positivity) (by positivity)
  have h2 : (0 : ℚ) ≤ min (catAvgDev cls k / 50) 1 :=
    le_min (div_nonneg (catAvgDev_nonneg hdev) (by norm_num)) (by norm_num)
  nlinarith

/-- The final category risk score is clamped below 100. -/
theorem catRiskScore_le (rules : List Rule) (cls : List Classification) (k : String) (w : ℚ) :
    catRiskScore rules cls k w ≤ 100 := min_le_left _ _

/-- With nonnegative deviations and weight, the final category risk score is
nonnegative. -/
theorem catRiskScore_nonneg (rules : List Rule) (cls : List Classification) (k : String) (w : ℚ)
    (hdev : ∀ x ∈ cls, 0 ≤ x.deviation_percent) (hw : 0 ≤ w) :
    0 ≤ catRiskScore rules cls k w := by
  unfold catRiskScore
  have h1 : 0 ≤ rhe (catRiskRaw cls k w) := rhe_nonneg (catRiskRaw_nonneg hdev hw)
  have h2 := clusterPenalty_nonneg (detect_interactions rules cls) k
  omega

/-- C1: the claim says the per-request scoring pipeline raises no exception
for any numeric biomarker mapping, in particular for negative values on a
range with low bound `0` and for status-`unknown` classification records.
The code contradicts this at both cited spots: `classify_biomarker`
(reached through `classify_all`) divides by the low bound `0` of
`triglycerides` for a negative value, raising `ZeroDivisionError`, and
`_get_risk_score` evaluates `c["deviation_percent"]` on the unknown record
(which lacks that field) in the high-deviation filter, raising
`KeyError`. -/
theorem c1_scoring_pipeline_raises :
    classify_all [("triglycerides", -5)] "male" =
      .error "ZeroDivisionError: float division by zero" ∧
    get_risk_score_raw []
      [⟨none, none, none, none, "unknown", none, none, some "No reference for foo"⟩] =
      .error "KeyError: 'deviation_percent'" :=
  ⟨rfl, rfl⟩

/-- C2: the claim says a classification for a biomarker key absent from the
catalog gets status `unknown` (true) and is then excluded from all category
and overall score computation without error.  The code instead feeds the
unknown record (which has no `deviation_percent` field) through the
abnormal-marker filter of `_get_risk_score`, which counts it as abnormal
(`status != "normal"`) and raises `KeyError: 'deviation_percent'` at the
high-deviation filter, so processing it is an error. -/
theorem c2_unknown_marker_crashes_scoring :
    classify_biomarker "homocysteine" 12 "female" =
      .ok ⟨none, none, none, none, "unknown", none, none, some "No reference for homocysteine"⟩ ∧
    get_risk_score_raw []
      [⟨none, none, none, none, "unknown", none, none, some "No reference for homocysteine"⟩] =
      .error "KeyError: 'deviation_percent'" :=
  ⟨rfl, rfl⟩

/-- C9: the claim says a catalog entry missing a required field makes
catalog loading fail fast with a descriptive error, and no runtime fault
surfaces during scoring.  The loader (`_load_interaction_modifiers`) is a
total assignment that performs no validation — it accepts a rule whose
condition has no `biomarker` field — and the fault then surfaces inside
`detect_interactions` during per-request scoring as
`KeyError: 'biomarker'`. -/
theorem c9_malformed_catalog_faults_at_scoring :
    load_interaction_modifiers ⟨some [⟨some "AND", some [⟨none, some "low"⟩], some 1⟩]⟩ =
      [⟨some "AND", some [⟨none, some "low"⟩], some 1⟩] ∧
    detect_interactions_raw [⟨some "AND", some [⟨none, some "low"⟩], some 1⟩]
      [⟨"hemoglobin", "low", 0, "blood_health"⟩] =
      .error "KeyError: 'biomarker'" :=
  ⟨rfl, rfl⟩

/-- C10: on an empty classification list `detect_interactions` returns the
empty list for every rule catalog, because of the early guard — even for a
rule all of whose conditions require status `"normal"`, which the
default-to-`"normal"` status lookup would otherwise satisfy. -/
theorem c10_detect_interactions_empty_input (rules : List Rule) :
    detect_interactions rules [] = [] := by
  simp [detect_interactions, detectOnPairs, clsPairs]

/-- One clause check of `_pattern_matches` holds exactly when the clause's
resolved form (if any) is satisfied by the status lookup. -/
theorem clauseCheck_iff (pairs : List (String × String)) (part : String) :
    ((match parseClause part with
      | none => true
      | some sn =>
        match findAssoc name_to_key sn.2 with
        | none => true
        | some bm_key => statusGet pairs bm_key == sn.1) = true)
    ↔ ∀ q : String × String,
        ((parseClause part).bind (fun sn =>
          (findAssoc name_to_key sn.2).map (fun bm_key => (sn.1, bm_key)))) = some q →
        statusGet pairs q.2 = q.1 := by
  rcases hp : parseClause part with _ | sn
  · simp [hp]
  · rcases hf : findAssoc name_to_key sn.2 with _ | k
    · simp [hp, hf]
    · simp [hp, hf, beq_iff_eq]

/-- A trigger pattern matches exactly when every parsed-and-resolved clause
is satisfied by the status lookup (unparsed or unresolved clauses are
skipped). -/
theorem pattern_matches_iff (p : String) (pairs : List (String × String)) :
    pattern_matches p pairs = true ↔ ∀ q ∈ resolvedClauses p, statusGet pairs q.2 = q.1 := by
  unfold pattern_matches resolvedClauses
  rw [List.all_eq_true]
  constructor
  · intro h q hq
    obtain ⟨part, hpart, hsome⟩ := List.mem_filterMap.mp hq
    exact (clauseCheck_iff pairs part).mp (h part hpart) q hsome
  · intro h part hpart
    exact (clauseCheck_iff pairs part).mpr
      (fun q hsome => h q (List.mem_filterMap.mpr ⟨part, hpart, hsome⟩))

/-- C7 (amended to nonempty classification lists): for a nonempty
classification list, an `AND` rule is triggered by `detect_interactions`
exactly when every condition's required status equals the looked-up status
of its biomarker key, an `OR` rule exactly when at least one condition's
does, and each catalog rule appears in the output at most as often as it
appears in the catalog. -/
theorem c7_detect_interactions_semantics (rules : List Rule) (cls : List Classification)
    (hne : cls ≠ []) :
    (∀ r ∈ rules, r.operator = "AND" →
      (r ∈ detect_interactions rules cls ↔
        ∀ cond ∈ r.conditions, statusGet (clsPairs cls) cond.biomarker = cond.status)) ∧
    (∀ r ∈ rules, r.operator = "OR" →
      (r ∈ detect_interactions rules cls ↔
        ∃ cond ∈ r.conditions, statusGet (clsPairs cls) cond.biomarker = cond.status)) ∧
    (∀ r : Rule, (detect_interactions rules cls).count r ≤ rules.count r) := by
  have hpairs : clsPairs cls ≠ [] := by
    intro h
    exact hne (List.map_eq_nil_iff.mp h)
  by_cases hr : rules = []
  · subst hr
    refine ⟨by simp, by simp, by simp [detect_interactions, detectOnPairs]⟩
  · have hdet : detect_interactions rules cls =
        (rules.filter (ruleTriggers (clsPairs cls))).mergeSort
          (fun a b => a.priority ≤ b.priority) := by
      rw [detect_interactions, detectOnPairs, if_neg]
      push_neg
      exact ⟨hr, hpairs⟩
    refine ⟨?_, ?_, ?_⟩
    · intro r hrr hop
      rw [hdet, List.mem_mergeSort, List.mem_filter]
      simp [ruleTriggers, hop, hrr, List.all_eq_true, beq_iff_eq]
    · intro r hrr hop
      rw [hdet, List.mem_mergeSort, List.mem_filter]
      simp [ruleTriggers, hop, hrr, List.any_eq_true, beq_iff_eq]
    · intro r
      rw [hdet]
      calc ((rules.filter (ruleTriggers (clsPairs cls))).mergeSort
              (fun a b => a.priority ≤ b.priority)).count r
          = (rules.filter (ruleTriggers (clsPairs cls))).count r :=
            (List.mergeSort_perm _ _).count_eq r
        _ ≤ rules.count r := (List.filter_sublist _).count_le r

/-- C7 witness: a one-condition `AND` rule fires on a matching nonempty
classification set. -/
theorem c7_witness :
    ([⟨"hemoglobin", "low", 0, "blood_health"⟩] : List Classification) ≠ [] ∧
    (⟨"Anemia pattern", "AND", [⟨"hemoglobin", "low"⟩], -10, "blood_health", 1⟩ : Rule) ∈
      detect_interactions
        [⟨"Anemia pattern", "AND", [⟨"hemoglobin", "low"⟩], -10, "blood_health", 1⟩]
        [⟨"hemoglobin", "low", 0, "blood_health"⟩] := by
  refine ⟨by simp, ?_⟩
  exact ((c7_detect_interactions_semantics _ _ (by simp)).1 _ (by simp) rfl).mpr (by decide)

/-- C7 counterexample to the unrestricted claim: on the empty classification
list an `AND` rule whose single condition requires status `"normal"` has
every condition satisfied by the default-to-`"normal"` lookup, yet
`detect_interactions` reports nothing (the early guard fires). -/
theorem c7_counterexample :
    detect_interactions
      [⟨"All normal", "AND", [⟨"hemoglobin", "normal"⟩], -5, "blood_health", 1⟩]
      ([] : List Classification) = [] ∧
    (∀ cond ∈ ([⟨"hemoglobin", "normal"⟩] : List Condition),
      statusGet (clsPairs []) cond.biomarker = cond.status) := by
  exact ⟨rfl, by decide⟩

/-- C8 (amended to nonempty classification lists): for a nonempty
classification list, a trigger pattern of the cluster catalog is reported by
`detect_cluster_triggers` exactly when every clause whose status word parses
and whose marker alias resolves through `name_to_key` has the
classification-set status of its key (default `"normal"`) equal to the
clause's required status; unresolved clauses are skipped and never cause a
non-match. -/
theorem c8_cluster_pattern_semantics (catalog : List (String × ClusterInfo))
    (cls : List Classification) (hne : cls ≠ [])
    (ck : String) (info : ClusterInfo) (tp : TriggerPattern)
    (hmem : (ck, info) ∈ catalog) (htp : tp ∈ info.trigger_patterns) :
    (⟨ck, info.description, tp.pattern, tp.diagnosis, tp.priority⟩ : DetectedPattern) ∈
      detect_cluster_triggers catalog cls ↔
    ∀ q ∈ resolvedClauses tp.pattern, statusGet (clsPairs cls) q.2 = q.1 := by
  have hcat : catalog ≠ [] := by
    rintro rfl
    simp at hmem
  have hguard : ¬(catalog = [] ∨ cls = []) := by
    push_neg
    exact ⟨hcat, hne⟩
  rw [detect_cluster_triggers, if_neg hguard, List.mem_mergeSort, List.mem_flatten]
  constructor
  · rintro ⟨sub, hsub, hd⟩
    obtain ⟨ck2, hck2, rfl⟩ := List.mem_map.mp hsub
    obtain ⟨tp2, htp2, hsome⟩ := List.mem_filterMap.mp hd
    by_cases hm2 : pattern_matches tp2.pattern (clsPairs cls) = true
    · rw [if_pos hm2] at hsome
      have hpat : tp2.pattern = tp.pattern :=
        congrArg DetectedPattern.pattern (Option.some.inj hsome)
      rw [hpat] at hm2
      exact (pattern_matches_iff _ _).mp hm2
    · rw [if_neg hm2] at hsome
      exact absurd hsome (by simp)
  · intro h
    refine ⟨_, List.mem_map.mpr ⟨(ck, info), hmem, rfl⟩, ?_⟩
    exact List.mem_filterMap.mpr ⟨tp, htp, by rw [if_pos ((pattern_matches_iff _ _).mpr h)]⟩

/-- C8 witness: the pattern `"Low Hb"` is reported on a classification set
in which hemoglobin is low. -/
theorem c8_witness :
    ([⟨"hemoglobin", "low", 0, "blood_health"⟩] : List Classification) ≠ [] ∧
    (⟨"anemia", "Anemia cluster", "Low Hb", "Iron deficiency pattern", 1⟩ : DetectedPattern) ∈
      detect_cluster_triggers
        [("anemia", ⟨"Anemia cluster", [⟨"Low Hb", "Iron deficiency pattern", 1⟩]⟩)]
        [⟨"hemoglobin", "low", 0, "blood_health"⟩] := by
  refine ⟨by simp, ?_⟩
  exact (c8_cluster_pattern_semantics
      [("anemia", ⟨"Anemia cluster", [⟨"Low Hb", "Iron deficiency pattern", 1⟩]⟩)]
      [⟨"hemoglobin", "low", 0, "blood_health"⟩] (by simp)
      "anemia" ⟨"Anemia cluster", [⟨"Low Hb", "Iron deficiency pattern", 1⟩]⟩
      ⟨"Low Hb", "Iron deficiency pattern", 1⟩ (by simp) (by simp)).mpr (by decide)

/-- C8 counterexample to the unrestricted claim: on the empty classification
list the pattern `"Normal Hb"` has its only resolved clause satisfied by the
default-to-`"normal"` lookup, yet `detect_cluster_triggers` reports nothing
(the early guard fires). -/
theorem c8_counterexample :
    detect_cluster_triggers
      [("anemia", ⟨"Anemia cluster", [⟨"Normal Hb", "No anemia", 1⟩]⟩)]
      ([] : List Classification) = [] ∧
    resolvedClauses "Normal Hb" = [("normal", "hemoglobin")] ∧
    (∀ q ∈ resolvedClauses "Normal Hb", statusGet (clsPairs []) q.2 = q.1) := by
  exact ⟨rfl, by decide, by decide⟩

/-- A successful `findAssoc` lookup returns the value of some list entry. -/
theorem findAssoc_mem {α : Type} {l : List (String × α)} {k : String} {v : α}
    (h : findAssoc l k = some v) : ∃ p ∈ l, p.2 = v := by
  unfold findAssoc at h
  obtain ⟨p, hp, hv⟩ := Option.map_eq_some'.mp h
  exact ⟨p, List.mem_of_find?_eq_some hp, hv⟩

/-- Every catalogued range has a nonnegative low bound, low below high, and
a positive high bound, for both genders. -/
theorem biomarker_range_facts : ∀ p ∈ BIOMARKER_RANGES,
    0 ≤ p.2.male.1 ∧ p.2.male.1 ≤ p.2.male.2 ∧ 0 < p.2.male.2 ∧
    0 ≤ p.2.female.1 ∧ p.2.female.1 ≤ p.2.female.2 ∧ 0 < p.2.female.2 := by
  intro p hp
  fin_cases hp <;> norm_num [BIOMARKER_RANGES]

/-- C6 (amended to exclude the division-by-zero input): for every catalogued
biomarker key, gender string and value, provided the value is not below a
resolved low bound of `0` (in which case the code raises instead of
classifying — see the counterexample), `classify_biomarker` returns a
record whose status is `"low"` iff the value is below the resolved low
bound, `"high"` iff above the resolved high bound, `"normal"` iff inside
the closed range; the deviation is `0` when normal and otherwise
`round(|boundary - value| / boundary * 100, 1)` with the violated boundary,
and it is always nonnegative.  The range is resolved case-insensitively:
only `"male"`/`"m"` select the male range, anything else the female one. -/
theorem c6_classify_biomarker_spec (key : String) (value : ℚ) (gender : String)
    (ref : BiomarkerDef) (href : findAssoc BIOMARKER_RANGES key = some ref)
    (hdz : ¬((genderRange ref gender).1 = 0 ∧ value < (genderRange ref gender).1)) :
    ∃ c : RecR, classify_biomarker key value gender = .ok c ∧
      (c.status = "low" ↔ value < (genderRange ref gender).1) ∧
      (c.status = "high" ↔ (genderRange ref gender).2 < value) ∧
      (c.status = "normal" ↔
        ((genderRange ref gender).1 ≤ value ∧ value ≤ (genderRange ref gender).2)) ∧
      c.deviation_percent = some (
        if value < (genderRange ref gender).1 then
          round1 (((genderRange ref gender).1 - value) / (genderRange ref gender).1 * 100)
        else if (genderRange ref gender).2 < value then
          round1 ((value - (genderRange ref gender).2) / (genderRange ref gender).2 * 100)
        else 0) ∧
      (∀ dv : ℚ, c.deviation_percent = some dv → 0 ≤ dv) := by
  obtain ⟨p, hp, hpv⟩ := findAssoc_mem href
  have hfacts := biomarker_range_facts p hp
  rw [hpv] at hfacts
  obtain ⟨hm0, hm12, hm2, hf0, hf12, hf2⟩ := hfacts
  have h0l : 0 ≤ (genderRange ref gender).1 := by
    unfold genderRange
    split_ifs
    · exact hm0
    · exact hf0
  have hlh : (genderRange ref gender).1 ≤ (genderRange ref gender).2 := by
    unfold genderRange
    split_ifs
    · exact hm12
    · exact hf12
  have h0h : 0 < (genderRange ref gender).2 := by
    unfold genderRange
    split_ifs
    · exact hm2
    · exact hf2
  simp only [classify_biomarker, href]
  by_cases h1 : value < (genderRange ref gender).1
  · have hlz : ¬(genderRange ref gender).1 = 0 := fun h => hdz ⟨h, h1⟩
    have h0l2 : 0 < (genderRange ref gender).1 := lt_of_le_of_ne h0l (Ne.symm hlz)
    rw [if_pos h1, if_neg hlz]
    refine ⟨_, rfl, ?_, ?_, ?_, ?_, ?_⟩
    · simpa using h1
    · constructor
      · intro h
        simp at h
      · intro h
        linarith
    · constructor
      · intro h
        simp at h
      · intro h
        linarith
    · rw [if_pos h1]
    · intro dv hdv
      have : dv = round1 (((genderRange ref gender).1 - value) / (genderRange ref gender).1 * 100) := by
        simpa using hdv.symm
      rw [this]
      apply round1_nonneg
      have hnum : 0 ≤ (genderRange ref gender).1 - value := by linarith
      positivity
  · rw [if_neg h1]
    by_cases h2 : value > (genderRange ref gender).2
    · have hhz : ¬(genderRange ref gender).2 = 0 := fun h => by rw [h] at h0h; exact lt_irrefl 0 h0h
      rw [if_pos h2, if_neg hhz]
      refine ⟨_, rfl, ?_, ?_, ?_, ?_, ?_⟩
      · constructor
        · intro h
          simp at h
        · intro h
          linarith
      · simpa using h2
      · constructor
        · intro h
          simp at h
        · intro h
          obtain ⟨_, hb⟩ := h
          linarith
      · rw [if_neg h1, if_pos h2]
      · intro dv hdv
        have : dv = round1 ((value - (genderRange ref gender).2) / (genderRange ref gender).2 * 100) := by
          simpa using hdv.symm
        rw [this]
        apply round1_nonneg
        have hnum : 0 ≤ value - (genderRange ref gender).2 := by linarith
        positivity
    · rw [if_neg h2]
      refine ⟨_, rfl, ?_, ?_, ?_, ?_, ?_⟩
      · constructor
        · intro h
          simp at h
        · intro h
          exact absurd h h1
      · constructor
        · intro h
          simp at h
        · intro h
          exact absurd h h2
      · simp only [true_iff]
        exact ⟨le_of_not_lt h1, le_of_not_lt h2⟩
      · rw [if_neg h1, if_neg h2]
      · intro dv hdv
        have : dv = 0 := by simpa using hdv.symm
        rw [this]

/-- C6 witness (spec Scenario A): hemoglobin 10 for a female (range
12.0-15.5) classifies as `"low"` with deviation 16.7. -/
theorem c6_witness :
    findAssoc BIOMARKER_RANGES "hemoglobin" =
      some ⟨"g/dL", (13.5, 17.5), (12.0, 15.5), "blood_health"⟩ ∧
    ¬(((genderRange ⟨"g/dL", (13.5, 17.5), (12.0, 15.5), "blood_health"⟩ "female").1 = 0) ∧
        (10 : ℚ) < (genderRange ⟨"g/dL", (13.5, 17.5), (12.0, 15.5), "blood_health"⟩ "female").1) ∧
    ∃ c : RecR, classify_biomarker "hemoglobin" 10 "female" = .ok c ∧
      c.status = "low" ∧ c.deviation_percent = some (167/10) := by
  have hg : genderRange ⟨"g/dL", (13.5, 17.5), (12.0, 15.5), "blood_health"⟩ "female" =
      (12.0, 15.5) := rfl
  refine ⟨rfl, by rw [hg]; norm_num, ?_⟩
  obtain ⟨c, hok, hlow, _, _, hdev, _⟩ :=
    c6_classify_biomarker_spec "hemoglobin" 10 "female"
      ⟨"g/dL", (13.5, 17.5), (12.0, 15.5), "blood_health"⟩ rfl (by rw [hg]; norm_num)
  refine ⟨c, hok, hlow.mpr (by rw [hg]; norm_num), ?_⟩
  rw [hdev, hg]
  norm_num [round1, rhe]

/-- C6 counterexample to the unrestricted claim: the value `-1` for `ldl`
is below the resolved low bound `0`, so the claim demands a `"low"`
classification, but `classify_biomarker` raises `ZeroDivisionError` in the
deviation formula instead of returning one. -/
theorem c6_counterexample :
    findAssoc BIOMARKER_RANGES "ldl" = some ⟨"mg/dL", (0, 100), (0, 100), "lipids"⟩ ∧
    (-1 : ℚ) < (genderRange ⟨"mg/dL", (0, 100), (0, 100), "lipids"⟩ "male").1 ∧
    classify_biomarker "ldl" (-1) "male" =
      .error "ZeroDivisionError: float division by zero" := by
  have hg : genderRange ⟨"mg/dL", (0, 100), (0, 100), "lipids"⟩ "male" = (0, 100) := rfl
  exact ⟨rfl, by rw [hg]; norm_num, rfl⟩

/-- C5: for each fixed risk category with at least one classified marker,
the result of `_get_risk_score` carries a category entry whose health score
is `max(0, 100 - risk)` where the category risk equals
`min(100, round((ratio * 60 + min(avg_dev / 50, 1) * 40) * weight))`
increased by the category's summed interaction penalty and re-clamped to
100, with the status label derived from the health score. -/
theorem c5_category_score_formula (rules : List Rule) (cls : List Classification)
    (k : String) (info : CatInfo)
    (hk : (k, info) ∈ RISK_CATEGORIES) (hm : catMarkers cls k ≠ []) :
    (k, (⟨info.label,
          max 0 (100 - catRiskScore rules cls k info.weight),
          statusLabelOf (max 0 (100 - catRiskScore rules cls k info.weight)),
          (catMarkers cls k).length,
          (catAbnormal cls k).length⟩ : CategoryScore)) ∈
      (get_risk_score rules cls).category_scores ∧
    catRiskScore rules cls k info.weight =
      min 100 (min 100 (rhe ((((catAbnormal cls k).length : ℚ) /
          ((catMarkers cls k).length : ℚ) * 60 +
          min (catAvgDev cls k / 50) 1 * 40) * info.weight)) +
        clusterPenalty (detect_interactions rules cls) k) := by
  have hcls : cls ≠ [] := by
    intro h
    subst h
    exact hm (by simp [catMarkers])
  constructor
  · simp only [get_risk_score, if_neg hcls]
    exact List.mem_filterMap.mpr ⟨(k, info), hk, by rw [if_neg hm]⟩
  · rfl

/-- C5 witness (spec Scenario B): a single-marker weight-1.0 category with
its one marker abnormal at deviation 50 yields category health score 0 and
status label `"High Risk"`. -/
theorem c5_witness :
    (("liver", (⟨"Liver Function", 1.0, "hand-holding-medical"⟩ : CatInfo)) ∈ RISK_CATEGORIES) ∧
    catMarkers [⟨"sgpt_alt", "high", 50, "liver"⟩] "liver" ≠ [] ∧
    (("liver", (⟨"Liver Function", 0, "High Risk", 1, 1⟩ : CategoryScore)) ∈
      (get_risk_score [] [⟨"sgpt_alt", "high", 50, "liver"⟩]).category_scores) := by
  have hk : ("liver", (⟨"Liver Function", 1.0, "hand-holding-medical"⟩ : CatInfo)) ∈
      RISK_CATEGORIES := by
    simp [RISK_CATEGORIES]
  have hm : catMarkers [⟨"sgpt_alt", "high", (50 : ℚ), "liver"⟩] "liver" ≠ [] := by
    simp [catMarkers]
  have hdet : detect_interactions [] [⟨"sgpt_alt", "high", (50 : ℚ), "liver"⟩] = [] := by
    simp [detect_interactions, detectOnPairs]
  have hrisk : catRiskScore [] [⟨"sgpt_alt", "high", (50 : ℚ), "liver"⟩] "liver"
      ((⟨"Liver Function", 1.0, "hand-holding-medical"⟩ : CatInfo)).weight = 100 := by
    rw [catRiskScore, hdet]
    have hraw : catRiskRaw [⟨"sgpt_alt", "high", (50 : ℚ), "liver"⟩] "liver"
        ((⟨"Liver Function", 1.0, "hand-holding-medical"⟩ : CatInfo)).weight = 100 := by
      rw [catRiskRaw, catAvgDev]
      simp [catMarkers, catAbnormal]
      norm_num
    rw [hraw]
    have h100 : rhe (100 : ℚ) = 100 := by
      have : ((100 : ℤ) : ℚ) = (100 : ℚ) := by norm_num
      rw [← this, rhe_intCast]
    rw [h100]
    simp [clusterPenalty]
  have hmain := (c5_category_score_formula [] [⟨"sgpt_alt", "high", (50 : ℚ), "liver"⟩]
      "liver" ⟨"Liver Function", 1.0, "hand-holding-medical"⟩ hk hm).1
  rw [hrisk] at hmain
  refine ⟨hk, hm, ?_⟩
  have hlen1 : (catMarkers [⟨"sgpt_alt", "high", (50 : ℚ), "liver"⟩] "liver").length = 1 := by
    simp [catMarkers]
  have hlen2 : (catAbnormal [⟨"sgpt_alt", "high", (50 : ℚ), "liver"⟩] "liver").length = 1 := by
    simp [catAbnormal, catMarkers]
  rw [hlen1, hlen2] at hmain
  have hmax : max (0 : ℤ) (100 - 100) = 0 := by norm_num
  rw [hmax] at hmain
  have hlabel : statusLabelOf 0 = "High Risk" := by
    simp [statusLabelOf]
  rw [hlabel] at hmain
  exact hmain

/-- The accumulated total weight is nonnegative. -/
theorem totalWeight_nonneg (cls : List Classification) : 0 ≤ totalWeight cls := by
  apply List.sum_nonneg
  intro x hx
  obtain ⟨p, hp, hsome⟩ := List.mem_filterMap.mp hx
  by_cases h : catMarkers cls p.1 = []
  · rw [if_pos h] at hsome
    exact absurd hsome (by simp)
  · rw [if_neg h] at hsome
    obtain rfl := Option.some.inj hsome
    have hw := (risk_category_weight_pos p hp).le
    positivity

/-- With nonnegative deviations, the accumulated weighted penalty is
nonnegative. -/
theorem weightedPenalty_nonneg (rules : List Rule) (cls : List Classification)
    (hdev : ∀ x ∈ cls, 0 ≤ x.deviation_percent) : 0 ≤ weightedPenalty rules cls := by
  apply List.sum_nonneg
  intro x hx
  obtain ⟨p, hp, hsome⟩ := List.mem_filterMap.mp hx
  by_cases h : catMarkers cls p.1 = []
  · rw [if_pos h] at hsome
    exact absurd hsome (by simp)
  · rw [if_neg h] at hsome
    obtain rfl := Option.some.inj hsome
    have hw := (risk_category_weight_pos p hp).le
    have hrs := catRiskScore_nonneg rules cls p.1 p.2.weight hdev hw
    have hrsq : (0 : ℚ) ≤ (catRiskScore rules cls p.1 p.2.weight : ℚ) := by exact_mod_cast hrs
    positivity

/-- The weighted penalty of a category table with nonnegative weights is at
most `100` times its total weight. -/
theorem weightedPenaltyOver_le (rules : List Rule) (cls : List Classification) :
    ∀ table : List (String × CatInfo), (∀ p ∈ table, (0 : ℚ) ≤ p.2.weight) →
      weightedPenaltyOver rules table cls ≤ 100 * totalWeightOver table cls := by
  intro table
  induction table with
  | nil => simp [weightedPenaltyOver, totalWeightOver]
  | cons p rest ih =>
    intro hw
    have hwp : (0 : ℚ) ≤ p.2.weight := hw p (by simp)
    have ihr := ih (fun q hq => hw q (by simp [hq]))
    by_cases h : catMarkers cls p.1 = []
    · unfold weightedPenaltyOver totalWeightOver
      rw [List.filterMap_cons_none (by rw [if_pos h]), List.filterMap_cons_none (by rw [if_pos h])]
      exact ihr
    · unfold weightedPenaltyOver totalWeightOver
      rw [List.filterMap_cons_some (by rw [if_neg h]),
        List.filterMap_cons_some (by rw [if_neg h]), List.sum_cons, List.sum_cons]
      have h1 : (catRiskScore rules cls p.1 p.2.weight : ℚ) ≤ 100 := by
        exact_mod_cast catRiskScore_le rules cls p.1 p.2.weight
      have h2 : (0 : ℚ) ≤ p.2.weight * ((catMarkers cls p.1).length : ℚ) := by positivity
      have h3 : weightedPenaltyOver rules rest cls ≤ 100 * totalWeightOver rest cls := ihr
      unfold weightedPenaltyOver totalWeightOver at h3
      nlinarith

/-- With nonnegative deviations the overall risk is nonnegative. -/
theorem overallRisk_nonneg (rules : List Rule) (cls : List Classification)
    (hdev : ∀ x ∈ cls, 0 ≤ x.deviation_percent) : 0 ≤ overallRisk rules cls := by
  unfold overallRisk
  split_ifs with h
  · apply le_min
    · norm_num
    · have h1 := weightedPenalty_nonneg rules cls hdev
      have h2 : (0 : ℚ) ≤ weightedPenalty rules cls / totalWeight cls := div_nonneg h1 h.le
      positivity
  · exact le_refl 0

/-- The overall risk is clamped below 100. -/
theorem overallRisk_le (rules : List Rule) (cls : List Classification) :
    overallRisk rules cls ≤ 100 := by
  unfold overallRisk
  split_ifs with h
  · exact min_le_left _ _
  · norm_num

/-- C4 (amended to nonempty inputs with the §3 data-model invariant of
nonnegative deviations): for every rule catalog and nonempty classification
list, the overall reported health score equals `100` minus the reported
risk score and both lie in `[0, 100]`; and every category entry's health
score equals `100` minus that category's risk score, both in `[0, 100]`.
For the empty list the code instead returns health score `0` with no
`risk_score` field at all (see the counterexample). -/
theorem c4_health_risk_inversion (rules : List Rule) (cls : List Classification)
    (hdev : ∀ c ∈ cls, 0 ≤ c.deviation_percent) (hne : cls ≠ []) :
    (∃ r : ℤ, (get_risk_score rules cls).risk_score = some r ∧
      (get_risk_score rules cls).score = 100 - r ∧
      0 ≤ r ∧ r ≤ 100 ∧
      0 ≤ (get_risk_score rules cls).score ∧ (get_risk_score rules cls).score ≤ 100) ∧
    (∀ p ∈ (get_risk_score rules cls).category_scores,
      ∃ info : CatInfo, (p.1, info) ∈ RISK_CATEGORIES ∧
        p.2.health_score = 100 - catRiskScore rules cls p.1 info.weight ∧
        0 ≤ catRiskScore rules cls p.1 info.weight ∧
        catRiskScore rules cls p.1 info.weight ≤ 100 ∧
        0 ≤ p.2.health_score ∧ p.2.health_score ≤ 100) := by
  have hor0 : 0 ≤ overallRisk rules cls := overallRisk_nonneg rules cls hdev
  have hor1 : overallRisk rules cls ≤ 100 := overallRisk_le rules cls
  have hr0 : 0 ≤ rhe (overallRisk rules cls) := rhe_nonneg hor0
  have hr1 : rhe (overallRisk rules cls) ≤ 100 := rhe_le_of_le (by exact_mod_cast hor1)
  simp only [get_risk_score, if_neg hne]
  constructor
  · refine ⟨rhe (overallRisk rules cls), rfl, ?_, hr0, hr1, ?_, ?_⟩
    · rw [rhe_hundred_sub]
      omega
    · rw [rhe_hundred_sub]
      omega
    · rw [rhe_hundred_sub]
      omega
  · intro p hp
    obtain ⟨q, hq, hsome⟩ := List.mem_filterMap.mp hp
    by_cases h : catMarkers cls q.1 = []
    · rw [if_pos h] at hsome
      exact absurd hsome (by simp)
    · rw [if_neg h] at hsome
      obtain rfl := Option.some.inj hsome
      have hw := (risk_category_weight_pos q hq).le
      have h0 := catRiskScore_nonneg rules cls q.1 q.2.weight hdev hw
      have h1 := catRiskScore_le rules cls q.1 q.2.weight
      refine ⟨q.2, by simpa using hq, ?_, ?_, ?_, ?_, ?_⟩ <;> dsimp only <;> omega

/-- C4 witness: a nonempty classification list where the inversion holds. -/
theorem c4_witness :
    (∀ c ∈ ([⟨"tsh", "normal", 0, "hormonal"⟩] : List Classification),
      0 ≤ c.deviation_percent) ∧
    ([⟨"tsh", "normal", 0, "hormonal"⟩] : List Classification) ≠ [] ∧
    (∃ r : ℤ, (get_risk_score [] [⟨"tsh", "normal", 0, "hormonal"⟩]).risk_score = some r ∧
      (get_risk_score [] [⟨"tsh", "normal", 0, "hormonal"⟩]).score = 100 - r ∧
      0 ≤ r ∧ r ≤ 100) := by
  have h1 : ∀ c ∈ ([⟨"tsh", "normal", 0, "hormonal"⟩] : List Classification),
      0 ≤ c.deviation_percent := by
    intro c hc
    simp at hc
    subst hc
    norm_num
  have h2 : ([⟨"tsh", "normal", 0, "hormonal"⟩] : List Classification) ≠ [] := by simp
  obtain ⟨r, hr, hs, hr0, hr1, _, _⟩ := (c4_health_risk_inversion [] _ h1 h2).1
  exact ⟨h1, h2, r, hr, hs, hr0, hr1⟩

/-- C4 counterexample to the unrestricted claim: on the empty classification
list the result reports health score `0` and carries no `risk_score` field,
so no risk value makes the inversion identity hold there. -/
theorem c4_counterexample :
    (get_risk_score [] []).score = 0 ∧ (get_risk_score [] []).risk_score = none ∧
    ¬∃ r : ℤ, (get_risk_score [] []).risk_score = some r ∧
      (get_risk_score [] []).score = 100 - r := by
  refine ⟨rfl, rfl, ?_⟩
  rintro ⟨r, hr, _⟩
  simp [get_risk_score] at hr

/-- Flipping one marker's status and deviation does not change the markers
of categories other than its own. -/
theorem catMarkers_flip_ne (l1 l2 : List Classification) (c : Classification)
    (s' : String) (d : ℚ) (k : String) (hk : c.category ≠ k) :
    catMarkers (l1 ++ (⟨c.key, s', d, c.category⟩ : Classification) :: l2) k =
      catMarkers (l1 ++ c :: l2) k := by
  have hb : (c.category == k) = false := beq_eq_false_iff_ne.mpr hk
  simp [catMarkers, List.filter_append, List.filter_cons, hb]

/-- Flipping one marker's status and deviation never changes any category's
marker count. -/
theorem catMarkers_flip_length (l1 l2 : List Classification) (c : Classification)
    (s' : String) (d : ℚ) (k : String) :
    (catMarkers (l1 ++ (⟨c.key, s', d, c.category⟩ : Classification) :: l2) k).length =
      (catMarkers (l1 ++ c :: l2) k).length := by
  by_cases hb : (c.category == k) = true
  · simp [catMarkers, List.filter_append, List.filter_cons, hb]
  · simp at hb
    have hb2 : (c.category == k) = false := beq_eq_false_iff_ne.mpr hb
    simp [catMarkers, List.filter_append, List.filter_cons, hb2]

/-- Flipping one marker from normal to abnormal can only add to the
high-deviation marker count. -/
theorem highDev_flip_le (l1 l2 : List Classification) (c : Classification)
    (s' : String) (d : ℚ) (hc : c.status = "normal") :
    (highDevOf (l1 ++ c :: l2)).length ≤
      (highDevOf (l1 ++ (⟨c.key, s', d, c.category⟩ : Classification) :: l2)).length := by
  have key : ∀ x : Classification, (highDevOf (l1 ++ x :: l2)).length =
      (highDevOf l1).length + ((highDevOf [x]).length + (highDevOf l2).length) := by
    intro x
    have hx : l1 ++ x :: l2 = l1 ++ ([x] ++ l2) := by simp
    rw [hx]
    simp [highDevOf, abnormalOf, List.filter_append]
    rw [show (x :: l2) = [x] ++ l2 from rfl, List.filter_append, List.length_append]
  rw [key, key]
  have hA : (highDevOf [c]).length = 0 := by
    simp [highDevOf, abnormalOf, hc]
  rw [hA]
  omega

/-- A category's abnormal markers distribute over an append-cons split. -/
theorem catAbnormal_append_cons (l1 l2 : List Classification) (x : Classification) (k : String) :
    catAbnormal (l1 ++ x :: l2) k =
      catAbnormal l1 k ++ (catAbnormal [x] k ++ catAbnormal l2 k) := by
  have hx : l1 ++ x :: l2 = l1 ++ ([x] ++ l2) := by simp
  rw [hx]
  simp [catAbnormal, catMarkers, List.filter_append]
  rw [show (x :: l2) = [x] ++ l2 from rfl, List.filter_append]

/-- A normal marker contributes nothing to any category's abnormal list. -/
theorem catAbnormal_singleton_normal (c : Classification) (k : String)
    (hc : c.status = "normal") : catAbnormal [c] k = [] := by
  simp [catAbnormal, catMarkers, List.filter_cons, hc]

/-- The flipped marker is abnormal in its own category. -/
theorem catAbnormal_singleton_flipped (c : Classification) (s' : String) (d : ℚ)
    (hs : s' ≠ "normal") :
    catAbnormal [(⟨c.key, s', d, c.category⟩ : Classification)] c.category =
      [⟨c.key, s', d, c.category⟩] := by
  simp [catAbnormal, catMarkers, List.filter_cons, hs]

/-- Arithmetic core of the monotonicity argument: adding one abnormal marker
with deviation at least the current average (and at least 0) to a category
never lowers the raw category risk. -/
theorem riskRaw_arith (n m : ℕ) (S d w : ℚ) (hn : 0 < n) (hS : 0 ≤ S) (hd : 0 ≤ d)
    (havg : (if m = 0 then (0 : ℚ) else S / (m : ℚ)) ≤ d) (hw : 0 ≤ w) :
    ((m : ℚ) / (n : ℚ) * 60 + min ((if m = 0 then (0 : ℚ) else S / (m : ℚ)) / 50) 1 * 40) * w ≤
    (((m : ℚ) + 1) / (n : ℚ) * 60 + min (((S + d) / ((m : ℚ) + 1)) / 50) 1 * 40) * w := by
  have hnq : (0 : ℚ) < (n : ℚ) := by exact_mod_cast hn
  have hm1 : (0 : ℚ) < (m : ℚ) + 1 := by positivity
  have havg2 : (if m = 0 then (0 : ℚ) else S / (m : ℚ)) ≤ (S + d) / ((m : ℚ) + 1) := by
    by_cases hm : m = 0
    · rw [if_pos hm]
      subst hm
      simp only [Nat.cast_zero, zero_add, div_one]
      linarith
    · rw [if_neg hm]
      rw [if_neg hm] at havg
      have hmq : (0 : ℚ) < (m : ℚ) := by exact_mod_cast Nat.pos_of_ne_zero hm
      rw [div_le_div_iff₀ hmq hm1]
      have hSd : S ≤ d * (m : ℚ) := by
        have h2 := (div_le_iff₀ hmq).mp havg
        linarith
      nlinarith
  apply mul_le_mul_of_nonneg_right _ hw
  have h1 : (m : ℚ) / (n : ℚ) ≤ ((m : ℚ) + 1) / (n : ℚ) :=
    (div_le_div_iff_of_pos_right hnq).mpr (by linarith)
  have h2 : min ((if m = 0 then (0 : ℚ) else S / (m : ℚ)) / 50) 1 ≤
      min (((S + d) / ((m : ℚ) + 1)) / 50) 1 :=
    min_le_min (by linarith) le_rfl
  linarith

set_option maxHeartbeats 1600000 in
/-- Flipping one marker from normal to abnormal with a deviation at least
its category's current mean abnormal deviation never lowers any category's
raw risk. -/
theorem catRiskRaw_flip_mono (l1 l2 : List Classification) (c : Classification)
    (s' : String) (d : ℚ) (hc : c.status = "normal") (hs : s' ≠ "normal")
    (hdev : ∀ x ∈ l1 ++ c :: l2, 0 ≤ x.deviation_percent) (hd0 : 0 ≤ d)
    (havg : catAvgDev (l1 ++ c :: l2) c.category ≤ d)
    (k : String) (w : ℚ) (hw : 0 ≤ w) :
    catRiskRaw (l1 ++ c :: l2) k w ≤
      catRiskRaw (l1 ++ (⟨c.key, s', d, c.category⟩ : Classification) :: l2) k w := by
  by_cases hk : c.category = k
  case neg =>
    have hmk := catMarkers_flip_ne l1 l2 c s' d k hk
    simp only [catRiskRaw, catAvgDev, catAbnormal, hmk]
    exact le_refl _
  case pos =>
    subst hk
    have hmemc : c ∈ catMarkers (l1 ++ c :: l2) c.category := by
      simp [catMarkers, List.mem_filter]
    have hn : 0 < (catMarkers (l1 ++ c :: l2) c.category).length :=
      List.length_pos_of_mem hmemc
    have hlenM := catMarkers_flip_length l1 l2 c s' d c.category
    have habA := catAbnormal_append_cons l1 l2 c c.category
    have habB := catAbnormal_append_cons l1 l2
      (⟨c.key, s', d, c.category⟩ : Classification) c.category
    rw [catAbnormal_singleton_normal c c.category hc] at habA
    rw [show (⟨c.key, s', d, c.category⟩ : Classification).category = c.category from rfl,
      catAbnormal_singleton_flipped c s' d hs] at habB
    have hlenB : (catAbnormal (l1 ++ (⟨c.key, s', d, c.category⟩ : Classification) :: l2)
        c.category).length =
        (catAbnormal (l1 ++ c :: l2) c.category).length + 1 := by
      rw [habA, habB]
      simp
      omega
    have hsumB : ((catAbnormal (l1 ++ (⟨c.key, s', d, c.category⟩ : Classification) :: l2)
          c.category).map (fun y => y.deviation_percent)).sum =
        ((catAbnormal (l1 ++ c :: l2) c.category).map (fun y => y.deviation_percent)).sum + d := by
      rw [habA, habB]
      simp
      ring
    have hS : 0 ≤ ((catAbnormal (l1 ++ c :: l2) c.category).map
        (fun y => y.deviation_percent)).sum := catAbnormal_sum_nonneg hdev
    have hBne : catAbnormal (l1 ++ (⟨c.key, s', d, c.category⟩ : Classification) :: l2)
        c.category ≠ [] := by
      rw [habB]
      simp
    have havgA : catAvgDev (l1 ++ c :: l2) c.category =
        (if (catAbnormal (l1 ++ c :: l2) c.category).length = 0 then (0 : ℚ)
         else ((catAbnormal (l1 ++ c :: l2) c.category).map
            (fun y => y.deviation_percent)).sum /
          ((catAbnormal (l1 ++ c :: l2) c.category).length : ℚ)) := by
      rw [catAvgDev]
      by_cases hE : catAbnormal (l1 ++ c :: l2) c.category = []
      · rw [if_pos hE, if_pos (by rw [hE]; simp)]
      · rw [if_neg hE, if_neg (by simpa [List.length_eq_zero] using hE)]
    have havgB : catAvgDev (l1 ++ (⟨c.key, s', d, c.category⟩ : Classification) :: l2)
        c.category =
        (((catAbnormal (l1 ++ c :: l2) c.category).map
            (fun y => y.deviation_percent)).sum + d) /
          (((catAbnormal (l1 ++ c :: l2) c.category).length : ℚ) + 1) := by
      rw [catAvgDev, if_neg hBne, hsumB, hlenB]
      push_cast
      ring
    rw [havgA] at havg
    rw [catRiskRaw, catRiskRaw, havgB, havgA, hlenB, hlenM]
    push_cast
    revert hn hS havg
    generalize ((catAbnormal (l1 ++ c :: l2) c.category).map
      (fun y => y.deviation_percent)).sum = S
    generalize (catAbnormal (l1 ++ c :: l2) c.category).length = m
    generalize (catMarkers (l1 ++ c :: l2) c.category).length = n
    intro hx1 hx2 hx3
    exact riskRaw_arith n m S d w hx2 hx3 hd0 hx1 hw

/-- With no interaction rules, flipping one marker from normal to abnormal
with a deviation at least its category's current mean abnormal deviation
never lowers any category's final risk score. -/
theorem catRiskScore_flip_mono (l1 l2 : List Classification) (c : Classification)
    (s' : String) (d : ℚ) (hc : c.status = "normal") (hs : s' ≠ "normal")
    (hdev : ∀ x ∈ l1 ++ c :: l2, 0 ≤ x.deviation_percent) (hd0 : 0 ≤ d)
    (havg : catAvgDev (l1 ++ c :: l2) c.category ≤ d)
    (k : String) (w : ℚ) (hw : 0 ≤ w) :
    catRiskScore [] (l1 ++ c :: l2) k w ≤
      catRiskScore [] (l1 ++ (⟨c.key, s', d, c.category⟩ : Classification) :: l2) k w := by
  have h1 : detect_interactions [] (l1 ++ c :: l2) = [] := by
    simp [detect_interactions, detectOnPairs]
  have h2 : detect_interactions []
      (l1 ++ (⟨c.key, s', d, c.category⟩ : Classification) :: l2) = [] := by
    simp [detect_interactions, detectOnPairs]
  rw [catRiskScore, catRiskScore, h1, h2]
  have h3 : clusterPenalty [] k = 0 := by simp [clusterPenalty]
  rw [h3]
  have h4 := rhe_mono (catRiskRaw_flip_mono l1 l2 c s' d hc hs hdev hd0 havg k w hw)
  omega

/-- With no interaction rules, the flip keeps every accumulated total weight
and never lowers the accumulated weighted penalty. -/
theorem flip_sums (l1 l2 : List Classification) (c : Classification)
    (s' : String) (d : ℚ) (hc : c.status = "normal") (hs : s' ≠ "normal")
    (hdev : ∀ x ∈ l1 ++ c :: l2, 0 ≤ x.deviation_percent) (hd0 : 0 ≤ d)
    (havg : catAvgDev (l1 ++ c :: l2) c.category ≤ d) :
    ∀ table : List (String × CatInfo), (∀ p ∈ table, (0 : ℚ) ≤ p.2.weight) →
      totalWeightOver table (l1 ++ (⟨c.key, s', d, c.category⟩ : Classification) :: l2) =
        totalWeightOver table (l1 ++ c :: l2) ∧
      weightedPenaltyOver [] table (l1 ++ c :: l2) ≤
        weightedPenaltyOver [] table
          (l1 ++ (⟨c.key, s', d, c.category⟩ : Classification) :: l2) := by
  intro table
  induction table with
  | nil => simp [totalWeightOver, weightedPenaltyOver]
  | cons p rest ih =>
    intro hw
    obtain ⟨ih1, ih2⟩ := ih (fun q hq => hw q (by simp [hq]))
    have hwp : (0 : ℚ) ≤ p.2.weight := hw p (by simp)
    have hlen := catMarkers_flip_length l1 l2 c s' d p.1
    have hempB : catMarkers (l1 ++ (⟨c.key, s', d, c.category⟩ : Classification) :: l2) p.1 = []
        ↔ catMarkers (l1 ++ c :: l2) p.1 = [] := by
      rw [← List.length_eq_zero, ← List.length_eq_zero, hlen]
    by_cases h : catMarkers (l1 ++ c :: l2) p.1 = []
    · have hB := hempB.mpr h
      unfold totalWeightOver weightedPenaltyOver
      rw [List.filterMap_cons_none (by rw [if_pos hB]),
        List.filterMap_cons_none (by rw [if_pos h]),
        List.filterMap_cons_none (by rw [if_pos h]),
        List.filterMap_cons_none (by rw [if_pos hB])]
      exact ⟨ih1, ih2⟩
    · have hB : ¬catMarkers (l1 ++ (⟨c.key, s', d, c.category⟩ : Classification) :: l2) p.1 = [] :=
        fun hh => h (hempB.mp hh)
      unfold totalWeightOver weightedPenaltyOver
      rw [List.filterMap_cons_some (by rw [if_neg hB]),
        List.filterMap_cons_some (by rw [if_neg h]),
        List.filterMap_cons_some (by rw [if_neg h]),
        List.filterMap_cons_some (by rw [if_neg hB]),
        List.sum_cons, List.sum_cons, List.sum_cons, List.sum_cons]
      constructor
      · rw [hlen]
        exact congrArg
          (fun z => p.2.weight * ((catMarkers (l1 ++ c :: l2) p.1).length : ℚ) + z) ih1
      · have hrisk := catRiskScore_flip_mono l1 l2 c s' d hc hs hdev hd0 havg p.1 p.2.weight hwp
        have hriskq : ((catRiskScore [] (l1 ++ c :: l2) p.1 p.2.weight : ℤ) : ℚ) ≤
            ((catRiskScore [] (l1 ++ (⟨c.key, s', d, c.category⟩ : Classification) :: l2)
              p.1 p.2.weight : ℤ) : ℚ) := by exact_mod_cast hrisk
        have hwlen : (0 : ℚ) ≤ p.2.weight * ((catMarkers (l1 ++ c :: l2) p.1).length : ℚ) := by
          positivity
        rw [hlen]
        exact add_le_add (mul_le_mul_of_nonneg_right hriskq hwlen) ih2

/-- C3 (amended): with no interaction rules in the catalog, holding all
other markers fixed and flipping one marker from status `"normal"` to any
abnormal status whose `deviation_percent` is nonnegative and at least the
current mean abnormal deviation of the marker's category (in particular,
whenever its category had no abnormal marker), the overall health score
never increases.  Without the deviation proviso the claim is false: a
low-deviation abnormal flip can dilute the category's mean severity and
raise the overall health score (see the counterexample). -/
theorem c3_flip_monotonicity (l1 l2 : List Classification) (c : Classification)
    (s' : String) (d : ℚ) (hc : c.status = "normal") (hs : s' ≠ "normal")
    (hdev : ∀ x ∈ l1 ++ c :: l2, 0 ≤ x.deviation_percent) (hd0 : 0 ≤ d)
    (havg : catAvgDev (l1 ++ c :: l2) c.category ≤ d) :
    (get_risk_score [] (l1 ++ (⟨c.key, s', d, c.category⟩ : Classification) :: l2)).score ≤
      (get_risk_score [] (l1 ++ c :: l2)).score := by
  have hA : (l1 ++ c :: l2) ≠ [] := by simp
  have hB : (l1 ++ (⟨c.key, s', d, c.category⟩ : Classification) :: l2) ≠ [] := by simp
  simp only [get_risk_score, if_neg hA, if_neg hB]
  have hor : overallRisk [] (l1 ++ c :: l2) ≤
      overallRisk [] (l1 ++ (⟨c.key, s', d, c.category⟩ : Classification) :: l2) := by
    obtain ⟨htw, hwp⟩ := flip_sums l1 l2 c s' d hc hs hdev hd0 havg RISK_CATEGORIES
      (fun p hp => (risk_category_weight_pos p hp).le)
    have htw2 : totalWeight (l1 ++ (⟨c.key, s', d, c.category⟩ : Classification) :: l2) =
        totalWeight (l1 ++ c :: l2) := htw
    have hwp2 : weightedPenalty [] (l1 ++ c :: l2) ≤
        weightedPenalty [] (l1 ++ (⟨c.key, s', d, c.category⟩ : Classification) :: l2) := hwp
    have hhd : ((highDevOf (l1 ++ c :: l2)).length : ℚ) ≤
        ((highDevOf (l1 ++ (⟨c.key, s', d, c.category⟩ : Classification) :: l2)).length : ℚ) := by
      exact_mod_cast highDev_flip_le l1 l2 c s' d hc
    rw [overallRisk, overallRisk, htw2]
    by_cases h : 0 < totalWeight (l1 ++ c :: l2)
    · rw [if_pos h, if_pos h]
      apply min_le_min le_rfl
      apply add_le_add
      · exact (div_le_div_iff_of_pos_right h).mpr hwp2
      · linarith
    · rw [if_neg h, if_neg h]
  have h1 := rhe_mono (by linarith :
    100 - overallRisk [] (l1 ++ (⟨c.key, s', d, c.category⟩ : Classification) :: l2) ≤
      100 - overallRisk [] (l1 ++ c :: l2))
  omega

/-- C3 witness: flipping the only marker of a one-marker category from
normal to abnormal at deviation 50 lowers (here: does not raise) the
overall health score. -/
theorem c3_witness :
    ((⟨"sgpt_alt", "normal", 0, "liver"⟩ : Classification).status = "normal") ∧
    ("high" : String) ≠ "normal" ∧
    (∀ x ∈ ([] ++ (⟨"sgpt_alt", "normal", 0, "liver"⟩ : Classification) :: []),
      0 ≤ x.deviation_percent) ∧
    ((0 : ℚ) ≤ 50) ∧
    (catAvgDev ([] ++ (⟨"sgpt_alt", "normal", 0, "liver"⟩ : Classification) :: [])
      (⟨"sgpt_alt", "normal", 0, "liver"⟩ : Classification).category ≤ 50) ∧
    ((get_risk_score [] ([] ++ (⟨"sgpt_alt", "high", 50, "liver"⟩ : Classification) :: [])).score ≤
      (get_risk_score [] ([] ++ (⟨"sgpt_alt", "normal", 0, "liver"⟩ : Classification) :: [])).score) := by
  have h3 : ∀ x ∈ ([] ++ (⟨"sgpt_alt", "normal", 0, "liver"⟩ : Classification) :: []),
      0 ≤ x.deviation_percent := by
    intro x hx
    simp at hx
    subst hx
    norm_num
  have h5 : catAvgDev ([] ++ (⟨"sgpt_alt", "normal", 0, "liver"⟩ : Classification) :: [])
      (⟨"sgpt_alt", "normal", 0, "liver"⟩ : Classification).category ≤ 50 := by
    rw [catAvgDev]
    rw [if_pos (by simp [catAbnormal, catMarkers])]
    norm_num
  exact ⟨rfl, by decide, h3, by norm_num, h5,
    c3_flip_monotonicity [] [] ⟨"sgpt_alt", "normal", 0, "liver"⟩ "high" 50 rfl
      (by decide) h3 (by norm_num) h5⟩

set_option maxHeartbeats 1600000 in
/-- C3 counterexample to the unrestricted claim: in a four-marker lipids
panel with one abnormal marker at deviation 50, flipping a second marker
from normal to abnormal at deviation 0 dilutes the category's mean
severity (50 to 25) faster than the abnormal-ratio penalty grows, so the
overall health score rises from 32 to 38. -/
theorem c3_counterexample :
    (get_risk_score [] [⟨"total_cholesterol", "high", 50, "lipids"⟩,
        ⟨"ldl", "normal", 0, "lipids"⟩, ⟨"hdl", "normal", 0, "lipids"⟩,
        ⟨"triglycerides", "normal", 0, "lipids"⟩]).score = 32 ∧
    (get_risk_score [] [⟨"total_cholesterol", "high", 50, "lipids"⟩,
        ⟨"ldl", "high", 0, "lipids"⟩, ⟨"hdl", "normal", 0, "lipids"⟩,
        ⟨"triglycerides", "normal", 0, "lipids"⟩]).score = 38 := by
  have hdetA : detect_interactions [] [(⟨"total_cholesterol", "high", 50, "lipids"⟩ : Classification),
      ⟨"ldl", "normal", 0, "lipids"⟩, ⟨"hdl", "normal", 0, "lipids"⟩,
      ⟨"triglycerides", "normal", 0, "lipids"⟩] = [] := by
    simp [detect_interactions, detectOnPairs]
  have hdetB : detect_interactions [] [(⟨"total_cholesterol", "high", 50, "lipids"⟩ : Classification),
      ⟨"ldl", "high", 0, "lipids"⟩, ⟨"hdl", "normal", 0, "lipids"⟩,
      ⟨"triglycerides", "normal", 0, "lipids"⟩] = [] := by
    simp [detect_interactions, detectOnPairs]
  have hrhe66 : rhe (66 : ℚ) = 66 := by norm_num [rhe]
  have hrhe60 : rhe (60 : ℚ) = 60 := by norm_num [rhe]
  have hriskA : catRiskScore [] [(⟨"total_cholesterol", "high", 50, "lipids"⟩ : Classification),
      ⟨"ldl", "normal", 0, "lipids"⟩, ⟨"hdl", "normal", 0, "lipids"⟩,
      ⟨"triglycerides", "normal", 0, "lipids"⟩] "lipids" (1.2 : ℚ) = 66 := by
    rw [catRiskScore, hdetA]
    have hraw : catRiskRaw [(⟨"total_cholesterol", "high", 50, "lipids"⟩ : Classification),
        ⟨"ldl", "normal", 0, "lipids"⟩, ⟨"hdl", "normal", 0, "lipids"⟩,
        ⟨"triglycerides", "normal", 0, "lipids"⟩] "lipids" (1.2 : ℚ) = 66 := by
      rw [catRiskRaw, catAvgDev]
      rw [show catAbnormal [(⟨"total_cholesterol", "high", 50, "lipids"⟩ : Classification),
          ⟨"ldl", "normal", 0, "lipids"⟩, ⟨"hdl", "normal", 0, "lipids"⟩,
          ⟨"triglycerides", "normal", 0, "lipids"⟩] "lipids" =
          [⟨"total_cholesterol", "high", 50, "lipids"⟩] from by decide]
      rw [show catMarkers [(⟨"total_cholesterol", "high", 50, "lipids"⟩ : Classification),
          ⟨"ldl", "normal", 0, "lipids"⟩, ⟨"hdl", "normal", 0, "lipids"⟩,
          ⟨"triglycerides", "normal", 0, "lipids"⟩] "lipids" =
          [⟨"total_cholesterol", "high", 50, "lipids"⟩, ⟨"ldl", "normal", 0, "lipids"⟩,
           ⟨"hdl", "normal", 0, "lipids"⟩, ⟨"triglycerides", "normal", 0, "lipids"⟩] from by decide]
      rw [if_neg (List.cons_ne_nil _ _)]
      norm_num
    rw [hraw, hrhe66]
    simp [clusterPenalty]
  have hriskB : catRiskScore [] [(⟨"total_cholesterol", "high", 50, "lipids"⟩ : Classification),
      ⟨"ldl", "high", 0, "lipids"⟩, ⟨"hdl", "normal", 0, "lipids"⟩,
      ⟨"triglycerides", "normal", 0, "lipids"⟩] "lipids" (1.2 : ℚ) = 60 := by
    rw [catRiskScore, hdetB]
    have hraw : catRiskRaw [(⟨"total_cholesterol", "high", 50, "lipids"⟩ : Classification),
        ⟨"ldl", "high", 0, "lipids"⟩, ⟨"hdl", "normal", 0, "lipids"⟩,
        ⟨"triglycerides", "normal", 0, "lipids"⟩] "lipids" (1.2 : ℚ) = 60 := by
      rw [catRiskRaw, catAvgDev]
      rw [show catAbnormal [(⟨"total_cholesterol", "high", 50, "lipids"⟩ : Classification),
          ⟨"ldl", "high", 0, "lipids"⟩, ⟨"hdl", "normal", 0, "lipids"⟩,
          ⟨"triglycerides", "normal", 0, "lipids"⟩] "lipids" =
          [⟨"total_cholesterol", "high", 50, "lipids"⟩, ⟨"ldl", "high", 0, "lipids"⟩] from by decide]
      rw [show catMarkers [(⟨"total_cholesterol", "high", 50, "lipids"⟩ : Classification),
          ⟨"ldl", "high", 0, "lipids"⟩, ⟨"hdl", "normal", 0, "lipids"⟩,
          ⟨"triglycerides", "normal", 0, "lipids"⟩] "lipids" =
          [⟨"total_cholesterol", "high", 50, "lipids"⟩, ⟨"ldl", "high", 0, "lipids"⟩,
           ⟨"hdl", "normal", 0, "lipids"⟩, ⟨"triglycerides", "normal", 0, "lipids"⟩] from by decide]
      rw [if_neg (List.cons_ne_nil _ _)]
      norm_num
    rw [hraw, hrhe60]
    simp [clusterPenalty]
  constructor
  · have hor : overallRisk [] [(⟨"total_cholesterol", "high", 50, "lipids"⟩ : Classification),
        ⟨"ldl", "normal", 0, "lipids"⟩, ⟨"hdl", "normal", 0, "lipids"⟩,
        ⟨"triglycerides", "normal", 0, "lipids"⟩] = 68 := by
      rw [overallRisk, totalWeight, weightedPenalty]
      simp [totalWeightOver, weightedPenaltyOver, RISK_CATEGORIES, List.filterMap_cons,
        List.filterMap_nil,
        show catMarkers [(⟨"total_cholesterol", "high", 50, "lipids"⟩ : Classification),
          ⟨"ldl", "normal", 0, "lipids"⟩, ⟨"hdl", "normal", 0, "lipids"⟩,
          ⟨"triglycerides", "normal", 0, "lipids"⟩] "metabolic" = [] from by decide,
        show catMarkers [(⟨"total_cholesterol", "high", 50, "lipids"⟩ : Classification),
          ⟨"ldl", "normal", 0, "lipids"⟩, ⟨"hdl", "normal", 0, "lipids"⟩,
          ⟨"triglycerides", "normal", 0, "lipids"⟩] "lipids" =
          [⟨"total_cholesterol", "high", 50, "lipids"⟩, ⟨"ldl", "normal", 0, "lipids"⟩,
           ⟨"hdl", "normal", 0, "lipids"⟩, ⟨"triglycerides", "normal", 0, "lipids"⟩] from by decide,
        show catMarkers [(⟨"total_cholesterol", "high", 50, "lipids"⟩ : Classification),
          ⟨"ldl", "normal", 0, "lipids"⟩, ⟨"hdl", "normal", 0, "lipids"⟩,
          ⟨"triglycerides", "normal", 0, "lipids"⟩] "deficiencies" = [] from by decide,
        show catMarkers [(⟨"total_cholesterol", "high", 50, "lipids"⟩ : Classification),
          ⟨"ldl", "normal", 0, "lipids"⟩, ⟨"hdl", "normal", 0, "lipids"⟩,
          ⟨"triglycerides", "normal", 0, "lipids"⟩] "inflammation" = [] from by decide,
        show catMarkers [(⟨"total_cholesterol", "high", 50, "lipids"⟩ : Classification),
          ⟨"ldl", "normal", 0, "lipids"⟩, ⟨"hdl", "normal", 0, "lipids"⟩,
          ⟨"triglycerides", "normal", 0, "lipids"⟩] "hormonal" = [] from by decide,
        show catMarkers [(⟨"total_cholesterol", "high", 50, "lipids"⟩ : Classification),
          ⟨"ldl", "normal", 0, "lipids"⟩, ⟨"hdl", "normal", 0, "lipids"⟩,
          ⟨"triglycerides", "normal", 0, "lipids"⟩] "blood_health" = [] from by decide,
        show catMarkers [(⟨"total_cholesterol", "high", 50, "lipids"⟩ : Classification),
          ⟨"ldl", "normal", 0, "lipids"⟩, ⟨"hdl", "normal", 0, "lipids"⟩,
          ⟨"triglycerides", "normal", 0, "lipids"⟩] "liver" = [] from by decide]
      simp [hriskA,
        show ((highDevOf [(⟨"total_cholesterol", "high", 50, "lipids"⟩ : Classification),
          ⟨"ldl", "normal", 0, "lipids"⟩, ⟨"hdl", "normal", 0, "lipids"⟩,
          ⟨"triglycerides", "normal", 0, "lipids"⟩]).length) = 1 from by decide]
      norm_num
    simp only [get_risk_score,
      if_neg (show ¬([(⟨"total_cholesterol", "high", 50, "lipids"⟩ : Classification),
        ⟨"ldl", "normal", 0, "lipids"⟩, ⟨"hdl", "normal", 0, "lipids"⟩,
        ⟨"triglycerides", "normal", 0, "lipids"⟩] = []) from by decide)]
    rw [hor]
    norm_num [rhe]
  · have hor : overallRisk [] [(⟨"total_cholesterol", "high", 50, "lipids"⟩ : Classification),
        ⟨"ldl", "high", 0, "lipids"⟩, ⟨"hdl", "normal", 0, "lipids"⟩,
        ⟨"triglycerides", "normal", 0, "lipids"⟩] = 62 := by
      rw [overallRisk, totalWeight, weightedPenalty]
      simp [totalWeightOver, weightedPenaltyOver, RISK_CATEGORIES, List.filterMap_cons,
        List.filterMap_nil,
        show catMarkers [(⟨"total_cholesterol", "high", 50, "lipids"⟩ : Classification),
          ⟨"ldl", "high", 0, "lipids"⟩, ⟨"hdl", "normal", 0, "lipids"⟩,
          ⟨"triglycerides", "normal", 0, "lipids"⟩] "metabolic" = [] from by decide,
        show catMarkers [(⟨"total_cholesterol", "high", 50, "lipids"⟩ : Classification),
          ⟨"ldl", "high", 0, "lipids"⟩, ⟨"hdl", "normal", 0, "lipids"⟩,
          ⟨"triglycerides", "normal", 0, "lipids"⟩] "lipids" =
          [⟨"total_cholesterol", "high", 50, "lipids"⟩, ⟨"ldl", "high", 0, "lipids"⟩,
           ⟨"hdl", "normal", 0, "lipids"⟩, ⟨"triglycerides", "normal", 0, "lipids"⟩] from by decide,
        show catMarkers [(⟨"total_cholesterol", "high", 50, "lipids"⟩ : Classification),
          ⟨"ldl", "high", 0, "lipids"⟩, ⟨"hdl", "normal", 0, "lipids"⟩,
          ⟨"triglycerides", "normal", 0, "lipids"⟩] "deficiencies" = [] from by decide,
        show catMarkers [(⟨"total_cholesterol", "high", 50, "lipids"⟩ : Classification),
          ⟨"ldl", "high", 0, "lipids"⟩, ⟨"hdl", "normal", 0, "lipids"⟩,
          ⟨"triglycerides", "normal", 0, "lipids"⟩] "inflammation" = [] from by decide,
        show catMarkers [(⟨"total_cholesterol", "high", 50, "lipids"⟩ : Classification),
          ⟨"ldl", "high", 0, "lipids"⟩, ⟨"hdl", "normal", 0, "lipids"⟩,
          ⟨"triglycerides", "normal", 0, "lipids"⟩] "hormonal" = [] from by decide,
        show catMarkers [(⟨"total_cholesterol", "high", 50, "lipids"⟩ : Classification),
          ⟨"ldl", "high", 0, "lipids"⟩, ⟨"hdl", "normal", 0, "lipids"⟩,
          ⟨"triglycerides", "normal", 0, "lipids"⟩] "blood_health" = [] from by decide,
        show catMarkers [(⟨"total_cholesterol", "high", 50, "lipids"⟩ : Classification),
          ⟨"ldl", "high", 0, "lipids"⟩, ⟨"hdl", "normal", 0, "lipids"⟩,
          ⟨"triglycerides", "normal", 0, "lipids"⟩] "liver" = [] from by decide]
      simp [hriskB,
        show ((highDevOf [(⟨"total_cholesterol", "high", 50, "lipids"⟩ : Classification),
          ⟨"ldl", "high", 0, "lipids"⟩, ⟨"hdl", "normal", 0, "lipids"⟩,
          ⟨"triglycerides", "normal", 0, "lipids"⟩]).length) = 1 from by decide]
      norm_num
    simp only [get_risk_score,
      if_neg (show ¬([(⟨"total_cholesterol", "high", 50, "lipids"⟩ : Classification),
        ⟨"ldl", "high", 0, "lipids"⟩, ⟨"hdl", "normal", 0, "lipids"⟩,
        ⟨"triglycerides", "normal", 0, "lipids"⟩] = []) from by decide)]
    rw [hor]
    norm_num [rhe]
